import Mathlib

/-!  Verification of the MindMail chatbot core (backend/app/chatbot/routes.py).

The Python source is shallowly embedded: every helper of the chat endpoint is
translated to an executable Lean function, side effects (Gmail calls, Gemini
calls) are made explicit through an effect-trace monad `Eff`, and exceptions
are modelled with `Except`.  Regex searches from the source are translated to
explicit scanners with the same greedy/backtracking behaviour.  -/

namespace MindMail

/-- ASCII lowercase of one character, as Python str.lower acts on ASCII text. -/
def lowerChar (c : Char) : Char :=
  if 65 ≤ c.toNat ∧ c.toNat ≤ 90 then Char.ofNat (c.toNat + 32) else c

/-- ASCII uppercase of one character, as Python str.upper acts on ASCII text. -/
def upperChar (c : Char) : Char :=
  if 97 ≤ c.toNat ∧ c.toNat ≤ 122 then Char.ofNat (c.toNat - 32) else c

/-- Whitespace characters recognised by Python's str.strip and the regex class \s. -/
def isSpaceChar (c : Char) : Bool :=
  (c == ' ') || (c == Char.ofNat 9) || (c == Char.ofNat 10) || (c == Char.ofNat 13) ||
  (c == Char.ofNat 11) || (c == Char.ofNat 12)

/-- Decimal digit test, the regex class \d on ASCII. -/
def isDigitChar (c : Char) : Bool :=
  decide (48 ≤ c.toNat ∧ c.toNat ≤ 57)

/-- ASCII letter test: the class [A-Z] or [a-z] under re.IGNORECASE. -/
def isAsciiAlpha (c : Char) : Bool :=
  decide ((65 ≤ c.toNat ∧ c.toNat ≤ 90) ∨ (97 ≤ c.toNat ∧ c.toNat ≤ 122))

/-- Characters of the regex class [a-zA-Z0-9_-] used by the in-band directives. -/
def idCharB (c : Char) : Bool :=
  isAsciiAlpha c || isDigitChar c || (c == '_') || (c == '-')

/-- Boolean prefix test on character lists. -/
def isPrefixOfL : List Char → List Char → Bool
  | [], _ => true
  | _ :: _, [] => false
  | a :: as, b :: bs => (a == b) && isPrefixOfL as bs

/-- Boolean contiguous-substring test on character lists, Python's `in` on strings. -/
def isInfixOfL (needle : List Char) : List Char → Bool
  | [] => isPrefixOfL needle []
  | c :: rest => isPrefixOfL needle (c :: rest) || isInfixOfL needle rest

/-- Python str.lower restricted to ASCII. -/
def pyLower (s : String) : String := String.mk (s.data.map lowerChar)

/-- Python str.upper restricted to ASCII. -/
def pyUpper (s : String) : String := String.mk (s.data.map upperChar)

/-- Python str.strip: drop leading and trailing whitespace. -/
def pyStrip (s : String) : String :=
  String.mk (((s.data.dropWhile isSpaceChar).reverse.dropWhile isSpaceChar).reverse)

/-- Python substring containment `needle in hay`. -/
def pyContains (hay needle : String) : Bool := isInfixOfL needle.data hay.data

/-- Python `any(word in hay for word in ws)`. -/
def containsAnyS (hay : String) (ws : List String) : Bool :=
  ws.any (fun w => pyContains hay w)

/-- Python slicing s[:n]. -/
def pyTakeChars (n : Nat) (s : String) : String := String.mk (s.data.take n)

/-- Left-to-right scan of re.search: try the matcher at every start position,
first success wins. -/
def scanFor {α : Type} (f : List Char → Option α) : List Char → Option α
  | [] => f []
  | c :: rest =>
    match f (c :: rest) with
    | some a => some a
    | none => scanFor f rest

/-- Match a literal case-insensitively at the current position, returning the rest. -/
def matchLitCI : List Char → List Char → Option (List Char)
  | [], l => some l
  | _ :: _, [] => none
  | a :: as, b :: bs => if lowerChar b == lowerChar a then matchLitCI as bs else none

/-- Match a literal case-sensitively at the current position, returning the rest. -/
def matchLit : List Char → List Char → Option (List Char)
  | [], l => some l
  | _ :: _, [] => none
  | a :: as, b :: bs => if b == a then matchLit as bs else none

/-- Greedy one-or-more run of a character class: `p+` in a regex.  Returns the
run and the remainder; fails when the first character is not in the class. -/
def runOf1 (p : Char → Bool) (l : List Char) : Option (List Char × List Char) :=
  match l with
  | c :: rest =>
    if p c then some (c :: rest.takeWhile p, rest.dropWhile p) else none
  | [] => none

/-- Greedy `\s+` that discards the matched spaces. -/
def spaces1 (l : List Char) : Option (List Char) :=
  (runOf1 isSpaceChar l).map (fun p => p.2)

/-- Numeric value of a digit run, Python int() on the captured group. -/
def digitsToNat (ds : List Char) : Nat :=
  ds.foldl (fun acc c => acc * 10 + (c.toNat - 48)) 0

/-- Matcher for the source pattern r'email\s+(\d+)' at one position. -/
def emailNumAt (l : List Char) : Option Nat := do
  let r1 ← matchLitCI ("email".data) l
  let r2 ← spaces1 r1
  let (d, _) ← runOf1 isDigitChar r2
  pure (digitsToNat d)

/-- Matcher for the source pattern r'#(\d+)' at one position. -/
def hashNumAt (l : List Char) : Option Nat :=
  match l with
  | c :: rest =>
    if c == '#' then (runOf1 isDigitChar rest).map (fun p => digitsToNat p.1) else none
  | [] => none

/-- Matcher for the source pattern r'number\s+(\d+)' at one position. -/
def numberNumAt (l : List Char) : Option Nat := do
  let r1 ← matchLitCI ("number".data) l
  let r2 ← spaces1 r1
  let (d, _) ← runOf1 isDigitChar r2
  pure (digitsToNat d)

/-- Optional ordinal suffix (?:st|nd|rd|th) under re.IGNORECASE. -/
def ordinalSuffixAt (l : List Char) : Option (List Char) :=
  match l with
  | a :: b :: rest =>
    let la := lowerChar a
    let lb := lowerChar b
    if ((la == 's') && (lb == 't')) || ((la == 'n') && (lb == 'd')) ||
       ((la == 'r') && (lb == 'd')) || ((la == 't') && (lb == 'h')) then
      some rest
    else none
  | _ => none

/-- Tail test `\s+email` (case-insensitive) used by the fourth number pattern. -/
def spacesEmailTail (l : List Char) : Bool :=
  (do
    let r ← spaces1 l
    let _ ← matchLitCI ("email".data) r
    pure ()).isSome

/-- Matcher for the source pattern r'(\d+)(?:st|nd|rd|th)?\s+email' at one position. -/
def numEmailAt (l : List Char) : Option Nat :=
  match runOf1 isDigitChar l with
  | none => none
  | some (d, rest) =>
    match ordinalSuffixAt rest with
    | some r2 =>
      if spacesEmailTail r2 then some (digitsToNat d)
      else if spacesEmailTail rest then some (digitsToNat d)
      else none
    | none => if spacesEmailTail rest then some (digitsToNat d) else none

/-- Embedding of _extract_email_number: the four patterns tried in source order,
each searched over the whole message. -/
def extract_email_number (message : String) : Option Nat :=
  (scanFor emailNumAt message.data) <|> (scanFor hashNumAt message.data) <|>
  (scanFor numberNumAt message.data) <|> (scanFor numEmailAt message.data)

/-- Does a nonspace token contain an interior at-sign (nonempty on both sides)? -/
def interiorHasAt (t : List Char) : Bool := ((t.drop 1).dropLast).contains ('@')

/-- Matcher for r'from\s+([^\s]+@[^\s]+)' at one position: the capture is the whole
nonspace token when it has an interior at-sign. -/
def fromEmailAt (l : List Char) : Option (List Char) := do
  let r1 ← matchLitCI ("from".data) l
  let r2 ← spaces1 r1
  let (t, _) ← runOf1 (fun c => !(isSpaceChar c)) r2
  if interiorHasAt t then pure t else none

/-- One word of the name pattern: [A-Z][a-z]+ under re.IGNORECASE, so two or more
ASCII letters. -/
def wordAt (l : List Char) : Option (List Char × List Char) :=
  match l with
  | c :: rest =>
    if isAsciiAlpha c then
      match rest.takeWhile isAsciiAlpha with
      | [] => none
      | run => some (c :: run, rest.drop run.length)
    else none
  | [] => none

/-- Capture of ([A-Z][a-z]+(?:\s+[A-Z][a-z]+)?): one word, greedily extended by a
second word when spaces and another word follow. -/
def nameCaptureAt (l : List Char) : Option (List Char) := do
  let (w1, rest) ← wordAt l
  match runOf1 isSpaceChar rest with
  | some (sp, rest2) =>
    match wordAt rest2 with
    | some (w2, _) => pure (w1 ++ sp ++ w2)
    | none => pure w1
  | none => pure w1

/-- Matcher for r'from\s+(NAME)' at one position. -/
def fromNameAt (l : List Char) : Option (List Char) := do
  let r1 ← matchLitCI ("from".data) l
  let r2 ← spaces1 r1
  nameCaptureAt r2

/-- Matcher for r'by\s+(NAME)' at one position. -/
def byNameAt (l : List Char) : Option (List Char) := do
  let r1 ← matchLitCI ("by".data) l
  let r2 ← spaces1 r1
  nameCaptureAt r2

/-- Matcher for r'sender\s+(NAME)' at one position. -/
def senderNameAt (l : List Char) : Option (List Char) := do
  let r1 ← matchLitCI ("sender".data) l
  let r2 ← spaces1 r1
  nameCaptureAt r2

/-- Embedding of _extract_sender_name: the four patterns in source order, and the
captured group stripped as in the source. -/
def extract_sender_name (message : String) : Option String :=
  ((scanFor fromEmailAt message.data) <|> (scanFor fromNameAt message.data) <|>
   (scanFor byNameAt message.data) <|> (scanFor senderNameAt message.data)).map
    (fun t => pyStrip (String.mk t))

/-- Quote characters excluded by the subject capture class. -/
def notQuote (c : Char) : Bool := !((c == Char.ofNat 34) || (c == Char.ofNat 39))

/-- One attempt of `["\']?([^"\']+)` at a fixed position: an optional opening quote
is consumed greedily, then the capture is the maximal nonempty non-quote run. -/
def subjTry (l : List Char) : Option (List Char) :=
  match l with
  | [] => none
  | c :: cs =>
    if notQuote c then some (c :: cs.takeWhile notQuote)
    else
      match cs.takeWhile notQuote with
      | [] => none
      | run => some run

/-- Backtracking of the greedy `\s+`: consume j spaces for j from the maximum down
to one, taking the first j whose remainder matches. -/
def subjDesc (l : List Char) : Nat → Option (List Char)
  | 0 => none
  | Nat.succ j =>
    match subjTry (l.drop (Nat.succ j)) with
    | some r => some r
    | none => subjDesc l j

/-- Matcher for r'LIT\s+["\']?([^"\']+)["\']?' at one position. -/
def subjCaptureAt (lit : List Char) (l : List Char) : Option (List Char) := do
  let r1 ← matchLitCI lit l
  let k := (r1.takeWhile isSpaceChar).length
  if k == 0 then none else subjDesc r1 k

/-- Embedding of _extract_subject_keyword: subject/about/regarding in source order,
captured group stripped. -/
def extract_subject_keyword (message : String) : Option String :=
  ((scanFor (subjCaptureAt ("subject".data)) message.data) <|>
   (scanFor (subjCaptureAt ("about".data)) message.data) <|>
   (scanFor (subjCaptureAt ("regarding".data)) message.data)).map
    (fun t => pyStrip (String.mk t))

/-- Matcher for r'email_id:([a-zA-Z0-9_-]+)' (case-sensitive) at one position. -/
def emailIdAt (l : List Char) : Option (List Char) := do
  let r1 ← matchLit ("email_id:".data) l
  let (run, _) ← runOf1 idCharB r1
  pure run

/-- First email_id directive in the message, as in the chat endpoint. -/
def extract_email_id_directive (message : String) : Option String :=
  (scanFor emailIdAt message.data).map String.mk

/-- Matcher for r'action_type:([a-zA-Z]+)' at one position. -/
def actionTypeAt (l : List Char) : Option (List Char) := do
  let r1 ← matchLit ("action_type:".data) l
  let (run, _) ← runOf1 isAsciiAlpha r1
  pure run

/-- First action_type directive in the message. -/
def extract_action_type_directive (message : String) : Option String :=
  (scanFor actionTypeAt message.data).map String.mk

/-- Matcher for r'category:([A-Za-z0-9_-]+)' at one position. -/
def categoryAt (l : List Char) : Option (List Char) := do
  let r1 ← matchLit ("category:".data) l
  let (run, _) ← runOf1 idCharB r1
  pure run

/-- First category directive in the message. -/
def extract_category_directive (message : String) : Option String :=
  (scanFor categoryAt message.data).map String.mk

/-- Matcher for r'reply_text:([a-zA-Z0-9_-]+):(.+)' with re.DOTALL at one position:
the id run, a colon, then the nonempty remainder of the message. -/
def replyTextAt (l : List Char) : Option (List Char × List Char) := do
  let r1 ← matchLit ("reply_text:".data) l
  let (g1, r2) ← runOf1 idCharB r1
  match r2 with
  | c :: rest =>
    if c == ':' then
      match rest with
      | [] => none
      | _ => some (g1, rest)
    else none
  | [] => none

/-- First reply_text directive in the message. -/
def extract_reply_text_directive (message : String) : Option (String × String) :=
  (scanFor replyTextAt message.data).map (fun p => (String.mk p.1, String.mk p.2))

/-- Opening brace character, written by code point to keep it out of literals. -/
def lbraceC : Char := Char.ofNat 123

/-- Closing brace character, written by code point to keep it out of literals. -/
def rbraceC : Char := Char.ofNat 125

/-- Matcher for the JSON-object regex of _understand_intent at one position: an
opening brace, one or more non-closing-brace characters, a closing brace. -/
def jsonObjAt (l : List Char) : Option (List Char) :=
  match l with
  | c :: cs =>
    if c == lbraceC then
      match cs.takeWhile (fun x => !(x == rbraceC)) with
      | [] => none
      | run =>
        match cs.drop run.length with
        | d :: _ => if d == rbraceC then some (c :: run ++ [d]) else none
        | [] => none
    else none
  | [] => none

/-- First JSON-object-shaped substring of the generation output. -/
def extract_json_object (s : String) : Option String :=
  (scanFor jsonObjAt s.data).map String.mk

/-- First integer in the message: re.search r'(\d+)'. -/
def firstInt (message : String) : Option Nat :=
  scanFor (fun l => (runOf1 isDigitChar l).map (fun p => digitsToNat p.1)) message.data

/-! ## Data model -/

/-- One entry of a mailbox listing as produced by fetch_latest_emails and
fetch_emails_by_label.  The Python dict key "from" is the field from_. -/
structure EmailSummary where
  id : String
  subject : String
  from_ : String
  snippet : String
  date : String
deriving DecidableEq, Repr

/-- A full message as a Python dict.  get_email_by_id populates every key; the
degraded dict built inside _handle_read_emails on a fetch failure omits the
"to" and "snippet" keys, hence those fields are optional. -/
structure FullEmail where
  id : String
  subject : String
  from_ : String
  to_ : Option String
  date : String
  body : String
  snippet : Option String
deriving DecidableEq, Repr

/-- One element of the "emails" payload of the batch read/summarize handler. -/
structure SummaryEntry where
  email_number : Nat
  id : String
  from_ : String
  subject : String
  summary : String
  date : String
deriving DecidableEq, Repr

/-- The email_content payload of the single-read handler. -/
structure EmailContent where
  from_ : String
  to_ : String
  date : String
  subject : String
  body : String
deriving DecidableEq, Repr

/-- The original_email payload echoed with pending confirmations. -/
structure OriginalEmail where
  from_ : String
  subject : String
deriving DecidableEq, Repr

/-- One category button: Gmail label id and display label. -/
structure Category where
  id : String
  label : String
deriving DecidableEq, Repr

/-- Result dict of the mutating Gmail service wrappers. -/
structure GmailResult where
  status : String
  message : String
  message_id : Option String
deriving DecidableEq, Repr

/-- The intent dict produced by _understand_intent: "intent", the only consumed
parameter "num_emails", and "confidence".  Each key may be absent when the dict
came from model output. -/
structure IntentData where
  intent : Option String
  num_emails : Option Nat
  confidence : Option ℚ
deriving DecidableEq, Repr

/-- The response dict of a chat turn.  Optional fields model dict keys that a
given handler may or may not set.  The batch read handler stores its list of
summary entries under the same JSON key "emails"; here it is the separate field
emailSummaries to keep the payload typed. -/
structure Response where
  reply : String
  emails : Option (List EmailSummary)
  emailSummaries : Option (List SummaryEntry)
  action_type : Option String
  show_email_list : Option Bool
  email_id : Option String
  email_content : Option EmailContent
  generated_reply : Option String
  original_email : Option OriginalEmail
  action_required : Option String
  categories : Option (List Category)
  show_category_buttons : Option Bool
  email_count : Option Nat
  status : Option String
  result : Option GmailResult
deriving DecidableEq, Repr

/-- A response carrying only a reply text, every other key absent. -/
def Response.base (reply : String) : Response :=
  ⟨reply, none, none, none, none, none, none, none, none, none, none, none, none,
   none, none⟩

/-! ## Effects -/

/-- One observable outbound call of a chat turn: the Gmail service wrappers, the
client construction, and the Gemini text-generation call. -/
inductive Call where
  | build : Call
  | list : Nat → Call
  | listLabel : String → Nat → Call
  | getMsg : String → Call
  | trash : String → Call
  | send : String → String → Call
  | generate : String → Call
deriving DecidableEq, Repr

/-- A Python exception value: ValueError, HTTPException, or any other class. -/
inductive PyError where
  | valueError : String → PyError
  | httpError : Nat → String → PyError
  | other : String → PyError
deriving DecidableEq, Repr

/-- Python str(e). -/
def PyError.message : PyError → String
  | .valueError m => m
  | .httpError _ d => d
  | .other m => m

/-- Equality on computation outcomes is decidable. -/
instance {ε α : Type} [DecidableEq ε] [DecidableEq α] : DecidableEq (Except ε α) := fun x y =>
  match x, y with
  | Except.ok a, Except.ok b =>
    match decEq a b with
    | isTrue h => isTrue (congrArg Except.ok h)
    | isFalse h => isFalse (fun hc => h (Except.ok.inj hc))
  | Except.error a, Except.error b =>
    match decEq a b with
    | isTrue h => isTrue (congrArg Except.error h)
    | isFalse h => isFalse (fun hc => h (Except.error.inj hc))
  | Except.ok _, Except.error _ => isFalse (fun hc => Except.noConfusion hc)
  | Except.error _, Except.ok _ => isFalse (fun hc => Except.noConfusion hc)

/-- A computation of the chat turn: its outcome (normal return or raised
exception) together with the trace of outbound calls it performed. -/
structure Eff (α : Type) where
  result : Except PyError α
  calls : List Call

/-- Equality of traced computations is decidable when the value type allows it. -/
instance {α : Type} [DecidableEq α] : DecidableEq (Eff α) := fun x y =>
  match x, y with
  | ⟨r1, c1⟩, ⟨r2, c2⟩ =>
    match decEq r1 r2, decEq c1 c2 with
    | isTrue h1, isTrue h2 => isTrue (by rw [h1, h2])
    | isFalse h1, _ => isFalse (fun hc => h1 (congrArg Eff.result hc))
    | _, isFalse h2 => isFalse (fun hc => h2 (congrArg Eff.calls hc))

/-- Return a value with no calls. -/
def Eff.pure {α : Type} (a : α) : Eff α := ⟨Except.ok a, []⟩

/-- Raise an exception with no calls. -/
def Eff.raise {α : Type} (e : PyError) : Eff α := ⟨Except.error e, []⟩

/-- Sequence two computations; calls made before an exception are kept. -/
def Eff.bind {α β : Type} (m : Eff α) (f : α → Eff β) : Eff β :=
  match m.result with
  | Except.ok a => ⟨(f a).result, m.calls ++ (f a).calls⟩
  | Except.error e => ⟨Except.error e, m.calls⟩

/-- Python try/except: on an exception run the handler, keeping prior calls. -/
def Eff.tryCatch {α : Type} (m : Eff α) (h : PyError → Eff α) : Eff α :=
  match m.result with
  | Except.ok _ => m
  | Except.error e => ⟨(h e).result, m.calls ++ (h e).calls⟩

/-- Behaviour of the mailbox collaborator for one turn: the outcome of each
Gmail service wrapper of gmail/service.py, indexed by its arguments. -/
structure Service where
  fetch_latest_emails : Nat → Except PyError (List EmailSummary)
  fetch_emails_by_label : String → Nat → Except PyError (List EmailSummary)
  get_email_by_id : String → Except PyError FullEmail
  delete_email : String → Except PyError GmailResult
  reply_to_email : String → String → Except PyError GmailResult

/-- Behaviour of the Gemini text-generation collaborator: outcome per prompt. -/
def Gemini : Type := String → Except PyError String

/-- Model of json.loads on the extracted JSON substring: outcome per input text,
none meaning the parse raised. -/
def JsonParse : Type := String → Option IntentData

/-- Traced call of get_gmail_service. -/
def buildServiceE : Eff Unit := ⟨Except.ok (), [Call.build]⟩

/-- Traced call of fetch_latest_emails. -/
def fetchLatestE (svc : Service) (n : Nat) : Eff (List EmailSummary) :=
  ⟨svc.fetch_latest_emails n, [Call.list n]⟩

/-- Traced call of fetch_emails_by_label. -/
def fetchByLabelE (svc : Service) (label : String) (n : Nat) : Eff (List EmailSummary) :=
  ⟨svc.fetch_emails_by_label label n, [Call.listLabel label n]⟩

/-- Traced call of get_email_by_id. -/
def getByIdE (svc : Service) (i : String) : Eff FullEmail :=
  ⟨svc.get_email_by_id i, [Call.getMsg i]⟩

/-- Traced call of delete_email (move to trash). -/
def deleteEmailE (svc : Service) (i : String) : Eff GmailResult :=
  ⟨svc.delete_email i, [Call.trash i]⟩

/-- Traced call of reply_to_email (send). -/
def replyToEmailE (svc : Service) (i : String) (body : String) : Eff GmailResult :=
  ⟨svc.reply_to_email i body, [Call.send i body]⟩

/-- Traced call of the gemini text-generation function. -/
def geminiE (g : Gemini) (prompt : String) : Eff String :=
  ⟨g prompt, [Call.generate prompt]⟩

/-! ## Intent extraction -/

/-- The intent-classification prompt of _understand_intent. -/
def intentPrompt (message : String) : String :=
  "Analyze this user message and determine their intent. Return ONLY a JSON object with these fields:\n- intent: one of [\"read\", \"summarize\", \"reply\", \"delete\", \"digest\", \"group\", \"greeting\", \"help\", \"unknown\"]\n- parameters: object with fields like email_number, sender, subject_keyword, num_emails, etc.\n- confidence: float between 0 and 1\n\nUser message: \"" ++ message ++ "\"\n\nReturn ONLY valid JSON, no other text."

/-- Keyword check of the read branch of the rule-based fallback. -/
def readCheck (ml : String) : Bool :=
  containsAnyS ml ["read", "show", "list", "display", "view"] || pyContains ml ("view & read")

/-- Keyword check of the summarize branch. -/
def summarizeCheck (ml : String) : Bool :=
  containsAnyS ml ["summarize", "summary", "summarise"] || pyContains ml ("summarize emails")

/-- Keyword check of the reply branch. -/
def replyCheck (ml : String) : Bool :=
  containsAnyS ml ["reply", "respond", "answer", "compose"] ||
  pyContains ml ("reply & compose") || pyContains ml ("help me reply")

/-- Keyword check of the delete branch. -/
def deleteCheck (ml : String) : Bool :=
  containsAnyS ml ["delete", "remove", "trash", "organize"] ||
  pyContains ml ("delete & organize") || pyContains ml ("help me delete")

/-- Keyword check of the digest branch. -/
def digestCheck (ml : String) : Bool :=
  containsAnyS ml ["digest", "today", "daily", "overview"] || pyContains ml ("daily digest")

/-- Keyword check of the show_categories branch (explicit categorize-mails phrases). -/
def categorizeMailsCheck (ml : String) : Bool :=
  containsAnyS ml ["categorize mails", "categorize emails", "show categories"] ||
  pyContains ml ("categorize mails")

/-- Keyword check of the group branch. -/
def groupCheck (ml : String) : Bool :=
  containsAnyS ml ["group", "categorize", "category", "organize"]

/-- Keyword check of the greeting branch. -/
def greetingCheck (ml : String) : Bool :=
  containsAnyS ml ["hello", "hi", "hey", "greetings"]

/-- Keyword check of the help branch. -/
def helpCheck (ml : String) : Bool :=
  containsAnyS ml ["help", "what can", "capabilities"]

/-- The rational 0.7, built in lowest terms so that kernel evaluation succeeds. -/
def conf07 : ℚ := ⟨7, 10, by decide, by decide⟩

/-- The rule-based fallback of _understand_intent: the cascading if-chain over the
lowercased message, first match wins, confidence always 0.7. -/
def rule_based_intent (message : String) : IntentData :=
  let ml := pyLower message
  let conf : Option ℚ := some conf07
  if readCheck ml then
    { intent := some ("read"), num_emails := some ((firstInt message).getD 5), confidence := conf }
  else if summarizeCheck ml then
    { intent := some ("summarize"), num_emails := some ((firstInt message).getD 5), confidence := conf }
  else if replyCheck ml then
    { intent := some ("reply"), num_emails := none, confidence := conf }
  else if deleteCheck ml then
    { intent := some ("delete"), num_emails := none, confidence := conf }
  else if digestCheck ml then
    { intent := some ("digest"), num_emails := none, confidence := conf }
  else if categorizeMailsCheck ml then
    { intent := some ("show_categories"), num_emails := none, confidence := conf }
  else if groupCheck ml then
    { intent := some ("group"), num_emails := none, confidence := conf }
  else if greetingCheck ml then
    { intent := some ("greeting"), num_emails := none, confidence := conf }
  else if helpCheck ml then
    { intent := some ("help"), num_emails := none, confidence := conf }
  else
    { intent := some ("unknown"), num_emails := none, confidence := conf }

/-- Embedding of _understand_intent: try the generation call and JSON extraction,
fall back to the rule-based classifier on any failure or missing JSON. -/
def understand_intent (g : Gemini) (parse : JsonParse) (message : String) : Eff IntentData :=
  Eff.tryCatch
    (Eff.bind (geminiE g (intentPrompt message)) (fun response =>
      match extract_json_object response with
      | some js =>
        match parse js with
        | some d => Eff.pure d
        | none => Eff.raise (PyError.valueError ("could not parse AI intent"))
      | none => Eff.pure (rule_based_intent message)))
    (fun _ => Eff.pure (rule_based_intent message))

/-! ## Handlers -/

/-- Enumerate a list with indices starting at i, Python enumerate. -/
def enumFrom {α : Type} : Nat → List α → List (Nat × α)
  | _, [] => []
  | i, a :: rest => (i, a) :: enumFrom (i + 1) rest

/-- Python str.join. -/
def pyJoin (sep : String) : List String → String
  | [] => ""
  | [x] => x
  | x :: y :: rest => x ++ sep ++ pyJoin sep (y :: rest)

/-- The action_texts lookup of _handle_show_email_list with default "process". -/
def action_text_of (action : String) : String :=
  if action == "read" then "read"
  else if action == "summarize" then "summarize"
  else if action == "reply" then "respond to"
  else if action == "delete" then "delete"
  else "process"

/-- Embedding of _handle_show_email_list. -/
def handle_show_email_list (svc : Service) (action : String) : Eff Response :=
  Eff.tryCatch
    (Eff.bind (fetchLatestE svc 10) (fun emails =>
      if emails.isEmpty then
        Eff.pure (Response.base ("You don't have any emails in your inbox."))
      else
        Eff.pure { Response.base ("Click the email you want to " ++ action_text_of action ++ ":") with
          emails := some emails, action_type := some action, show_email_list := some true }))
    (fun e => Eff.raise (PyError.valueError ("Failed to fetch emails: " ++ e.message)))

/-- Embedding of _handle_read_single_email. -/
def handle_read_single_email (svc : Service) (email_id : String) : Eff Response :=
  Eff.tryCatch
    (Eff.bind (getByIdE svc email_id) (fun full =>
      Eff.pure { Response.base ("Here's the email.") with
        email_id := some email_id,
        email_content := some {
          from_ := full.from_,
          to_ := if (full.to_.getD ("")) == "" then "N/A" else full.to_.getD (""),
          date := if full.date == "" then "N/A" else full.date,
          subject := full.subject,
          body := pyStrip full.body } }))
    (fun e => Eff.raise (PyError.valueError ("Failed to read email: " ++ e.message)))

/-- The per-message summarization prompt shared by the single and batch handlers. -/
def summaryPrompt (from_ subject body : String) : String :=
  "You are an email assistant. Summarize this email in 3-4 sentences, highlighting:\n1. The main purpose or topic\n2. Key points or action items\n3. Any important details or deadlines\n\nEmail:\nFrom: " ++ from_ ++ "\nSubject: " ++ subject ++ "\nBody: " ++ pyTakeChars 1000 body ++ "\n\nProvide a concise, professional summary:"

/-- Embedding of _handle_summarize_single_email. -/
def handle_summarize_single_email (svc : Service) (g : Gemini) (email_id : String) : Eff Response :=
  Eff.tryCatch
    (Eff.bind (getByIdE svc email_id) (fun full =>
      Eff.bind (geminiE g (summaryPrompt full.from_ full.subject full.body)) (fun summary =>
        Eff.pure { Response.base ("📧 **Email Summary**\n\n**From:** " ++ full.from_ ++ "\n**Subject:** " ++ full.subject ++ "\n\n**AI Summary:**\n" ++ summary) with
          email_id := some email_id })))
    (fun e => Eff.raise (PyError.valueError ("Failed to summarize email: " ++ e.message)))

/-- Embedding of _handle_reply_to_single_email. -/
def handle_reply_to_single_email (svc : Service) (email_id : String) : Eff Response :=
  Eff.tryCatch
    (Eff.bind (getByIdE svc email_id) (fun full =>
      Eff.pure { Response.base ("📧 **Reply to Email**\n\n**Original Email:**\nFrom: " ++ full.from_ ++ "\nSubject: " ++ full.subject ++ "\n\n─────────────────────────────────────\n\n" ++ pyTakeChars 500 full.body ++ (if 500 < full.body.data.length then "..." else "") ++ "\n\n─────────────────────────────────────\n\nPlease type your reply below. I'll show you a preview before sending.") with
        email_id := some email_id,
        original_email := some { from_ := full.from_, subject := full.subject },
        action_required := some ("compose_reply") }))
    (fun e => Eff.raise (PyError.valueError ("Failed to prepare reply: " ++ e.message)))

/-- Embedding of _handle_user_composed_reply. -/
def handle_user_composed_reply (svc : Service) (email_id : String) (reply_text : String) : Eff Response :=
  Eff.tryCatch
    (if (reply_text == "") || (pyStrip reply_text == "") then
      Eff.pure { Response.base ("Your reply is empty. Please type your reply message.") with
        email_id := some email_id, action_required := some ("compose_reply") }
    else
      Eff.bind
        (Eff.tryCatch
          (Eff.bind (getByIdE svc email_id) (fun full => Eff.pure (full.from_, full.subject)))
          (fun _ => Eff.pure ("Unknown", "Unknown")))
        (fun p =>
          Eff.pure { Response.base ("✉️ **Reply Preview**\n\n**Replying to:**\nFrom: " ++ p.1 ++ "\nSubject: " ++ p.2 ++ "\n\n─────────────────────────────────────\n\n**Your Reply:**\n" ++ reply_text ++ "\n\n─────────────────────────────────────\n\nWould you like to send this reply? Type 'yes' or 'send' to confirm, or 'no' to cancel.") with
            email_id := some email_id,
            generated_reply := some reply_text,
            original_email := some { from_ := p.1, subject := p.2 },
            action_required := some ("confirm_send") }))
    (fun e => Eff.raise (PyError.valueError ("Failed to process reply: " ++ e.message)))

/-- The delete-confirmation reply used by both delete paths. -/
def delete_confirm_text (from_ subject : String) : String :=
  "I found this email:\n\nFrom: " ++ from_ ++ "\nSubject: " ++ subject ++ "\n\nAre you sure you want to delete it? (Say 'yes' or 'confirm' to delete, or 'no' to cancel)"

/-- Embedding of _handle_delete_single_email. -/
def handle_delete_single_email (svc : Service) (email_id : String) : Eff Response :=
  Eff.tryCatch
    (Eff.bind
      (Eff.tryCatch
        (Eff.bind (getByIdE svc email_id) (fun info => Eff.pure (info.subject, info.from_)))
        (fun _ => Eff.pure ("email", "unknown")))
      (fun p =>
        Eff.pure { Response.base (delete_confirm_text p.2 p.1) with
          email_id := some email_id, action_required := some ("confirm_delete") }))
    (fun e => Eff.raise (PyError.valueError ("Failed to process delete request: " ++ e.message)))

/-- The degraded full-message dict built when a per-item fetch fails in the batch
read handler: note it carries no "to" and no "snippet" key. -/
def degraded_full (em : EmailSummary) : FullEmail :=
  { id := em.id, subject := em.subject, from_ := em.from_, to_ := none, date := "",
    body := em.snippet, snippet := none }

/-- First loop of _handle_read_emails: fetch full content per item, substituting
the degraded dict on a per-item failure. -/
def fetch_full_contents (svc : Service) : List EmailSummary → Eff (List FullEmail)
  | [] => Eff.pure []
  | em :: rest =>
    Eff.bind
      (Eff.tryCatch (getByIdE svc em.id) (fun _ => Eff.pure (degraded_full em)))
      (fun f => Eff.bind (fetch_full_contents svc rest) (fun tail => Eff.pure (f :: tail)))

/-- One summary entry of the batch read handler. -/
def summary_entry (i : Nat) (e : FullEmail) (s : String) : SummaryEntry :=
  { email_number := i + 1, id := e.id, from_ := e.from_, subject := e.subject,
    summary := s, date := e.date }

/-- Second loop of _handle_read_emails: generate a summary per item, substituting
the dict's snippet (default "Summary unavailable") on a generation failure. -/
def summarize_from (g : Gemini) : Nat → List FullEmail → Eff (List SummaryEntry)
  | _, [] => Eff.pure []
  | i, e :: rest =>
    Eff.bind
      (Eff.tryCatch (geminiE g (summaryPrompt e.from_ e.subject e.body))
        (fun _ => Eff.pure (e.snippet.getD ("Summary unavailable"))))
      (fun s =>
        Eff.bind (summarize_from g (i + 1) rest) (fun tail =>
          Eff.pure (summary_entry i e s :: tail)))

/-- The formatted reply text of the batch read handler. -/
def read_response_text (summaries : List SummaryEntry) : String :=
  "Here are your last " ++ Nat.repr summaries.length ++ " emails with AI-generated summaries:\n\n" ++
  String.join (summaries.map (fun s =>
    "📧 **Email #" ++ Nat.repr s.email_number ++ "**\nFrom: " ++ s.from_ ++ "\nSubject: " ++ s.subject ++ "\nSummary: " ++ s.summary ++ "\n\n")) ++
  "To read a specific email in full, say 'read email [number]' or 'show me email 1'"

/-- Embedding of _handle_read_emails. -/
def handle_read_emails (svc : Service) (g : Gemini) (num_emails : Nat) (_message : String) : Eff Response :=
  Eff.tryCatch
    (Eff.bind (fetchLatestE svc num_emails) (fun emails =>
      if emails.isEmpty then Eff.pure (Response.base ("You don't have any emails in your inbox."))
      else
        Eff.bind (fetch_full_contents svc emails) (fun fulls =>
          Eff.bind (summarize_from g 0 fulls) (fun summaries =>
            Eff.pure { Response.base (read_response_text summaries) with
              emailSummaries := some summaries }))))
    (fun e => Eff.raise (PyError.valueError ("Failed to read emails: " ++ e.message)))

/-- Embedding of _handle_summarize_emails, which delegates to the read handler. -/
def handle_summarize_emails (svc : Service) (g : Gemini) (num_emails : Nat) (message : String) : Eff Response :=
  handle_read_emails svc g num_emails message

/-- Sender resolution shared by the reply and delete handlers: first listing item
whose lowercased sender contains the lowercased extracted sender, skipped when
the extraction is empty or missing. -/
def sender_target (emails : List EmailSummary) (sender : Option String) : Option EmailSummary :=
  match sender with
  | some s =>
    if s == "" then none
    else emails.find? (fun em => pyContains (pyLower em.from_) (pyLower s))
  | none => none

/-- Subject-keyword resolution of the delete handler: first listing item whose
lowercased subject contains the lowercased keyword. -/
def subject_target (emails : List EmailSummary) (kw : Option String) : Option EmailSummary :=
  match kw with
  | some s =>
    if s == "" then none
    else emails.find? (fun em => pyContains (pyLower em.subject) (pyLower s))
  | none => none

/-- Generic-request guard of _handle_reply_intent. -/
def reply_generic_guard (ml : String) : Bool :=
  pyContains ml ("help me reply") || pyContains ml ("reply & compose") ||
  (pyContains ml ("reply") && !(containsAnyS ml ["email", "to", "from", "number", "#"]))

/-- Numbered listing lines with previews, shared shape of the pick lists. -/
def pick_lines (emails : List EmailSummary) : String :=
  pyJoin "\n" ((enumFrom 0 (emails.take 10)).map (fun p =>
    Nat.repr (p.1 + 1) ++ ". From: " ++ p.2.from_ ++ "\n   Subject: " ++ p.2.subject ++ "\n   Preview: " ++ pyTakeChars 80 p.2.snippet ++ "..."))

/-- The reply-drafting prompt of _handle_reply_intent. -/
def replyPrompt (from_ subject body message : String) : String :=
  "You are an email assistant helping to draft a professional reply. \n\nOriginal Email:\nFrom: " ++ from_ ++ "\nSubject: " ++ subject ++ "\nBody: " ++ body ++ "\n\nUser's request: \"" ++ message ++ "\"\n\nGenerate a professional, context-aware reply email. The reply should be:\n- Clear and concise\n- Professional in tone\n- Address the points raised in the original email\n- Ready to send (complete email body)\n\nReturn ONLY the reply text, no additional formatting or explanations."

/-- The generated-reply preview text of _handle_reply_intent. -/
def reply_preview_text (from_ subject reply_text : String) : String :=
  "I've generated a reply for you:\n\n**Original Email:**\nFrom: " ++ from_ ++ "\nSubject: " ++ subject ++ "\n\n**Generated Reply:**\n" ++ reply_text ++ "\n\nWould you like to send this reply? (You can confirm by saying \"send\" or \"yes\", or modify it first)"

/-- The target cascade of _handle_reply_intent, lines 540-555: the in-range
ordinal wins, otherwise the first sender match, otherwise the latest message
e0.  There is no subject-keyword step in the reply handler. -/
def reply_target (message : String) (emails : List EmailSummary) (e0 : EmailSummary) : EmailSummary :=
  (match extract_email_number message with
   | some n =>
     if h : 1 ≤ n ∧ n ≤ emails.length then some (emails.get ⟨n - 1, by omega⟩)
     else sender_target emails (extract_sender_name message)
   | none => sender_target emails (extract_sender_name message)).getD e0

/-- Embedding of _handle_reply_intent. -/
def handle_reply_intent (svc : Service) (g : Gemini) (message : String) (_parameters : IntentData) : Eff Response :=
  Eff.tryCatch
    (Eff.bind (fetchLatestE svc 10) (fun emails =>
      match emails with
      | [] => Eff.pure (Response.base ("You don't have any emails to reply to."))
      | e0 :: _ =>
        let ml := pyLower message
        if reply_generic_guard ml then
          Eff.pure { Response.base ("I found " ++ Nat.repr emails.length ++ " recent emails. Which one would you like to reply to?\n\n" ++ pick_lines emails ++ "\n\nYou can:\n- Say the email number (e.g., 'email 1')\n- Say the sender name (e.g., 'reply to John')\n- Or describe the email subject") with
            emails := some (emails.take 10) }
        else
          let target_email := reply_target message emails e0
          Eff.bind (getByIdE svc target_email.id) (fun full =>
            Eff.bind (geminiE g (replyPrompt full.from_ full.subject full.body message)) (fun reply_text =>
              Eff.pure { Response.base (reply_preview_text full.from_ full.subject reply_text) with
                email_id := some target_email.id,
                generated_reply := some reply_text,
                original_email := some { from_ := full.from_, subject := full.subject },
                action_required := some ("confirm_send") }))))
    (fun e => Eff.raise (PyError.valueError ("Failed to generate reply: " ++ e.message)))

/-- Generic-request guard of _handle_delete_intent. -/
def delete_generic_guard (ml : String) : Bool :=
  pyContains ml ("help me delete") || pyContains ml ("delete & organize") ||
  (pyContains ml ("delete") && !(containsAnyS ml ["email", "from", "number", "#", "about", "subject"]))

/-- Numbered listing lines without previews, used by the delete clarification. -/
def clarify_lines (emails : List EmailSummary) : String :=
  pyJoin "\n" ((enumFrom 0 (emails.take 10)).map (fun p =>
    Nat.repr (p.1 + 1) ++ ". From: " ++ p.2.from_ ++ "\n   Subject: " ++ p.2.subject))

/-- The three-step target cascade of _handle_delete_intent: ordinal, then sender,
then subject keyword. -/
def delete_target (message : String) (emails : List EmailSummary) : Option EmailSummary :=
  let t1 :=
    match extract_email_number message with
    | some n =>
      if h : 1 ≤ n ∧ n ≤ emails.length then some (emails.get ⟨n - 1, by omega⟩) else none
    | none => none
  let t2 :=
    match t1 with
    | some t => some t
    | none => sender_target emails (extract_sender_name message)
  match t2 with
  | some t => some t
  | none => subject_target emails (extract_subject_keyword message)

/-- Embedding of _handle_delete_intent. -/
def handle_delete_intent (svc : Service) (message : String) (_parameters : IntentData) : Eff Response :=
  Eff.tryCatch
    (Eff.bind (fetchLatestE svc 20) (fun emails =>
      if emails.isEmpty then Eff.pure (Response.base ("You don't have any emails to delete."))
      else
        let ml := pyLower message
        if delete_generic_guard ml then
          Eff.pure { Response.base ("I found " ++ Nat.repr emails.length ++ " recent emails. Which one would you like to delete?\n\n" ++ pick_lines emails ++ "\n\nYou can:\n- Say the email number (e.g., 'delete email 1')\n- Say the sender (e.g., 'delete email from john@example.com')\n- Or describe the subject (e.g., 'delete email about invoices')") with
            emails := some (emails.take 10) }
        else
          match delete_target message emails with
          | none =>
            Eff.pure { Response.base ("I found " ++ Nat.repr emails.length ++ " emails. Which one would you like to delete?\n\n" ++ clarify_lines emails ++ "\n\nYou can specify by:\n- Number: 'delete email 1'\n- Sender: 'delete email from john@example.com'\n- Subject: 'delete email about invoices'") with
              emails := some (emails.take 10) }
          | some target =>
            Eff.pure { Response.base (delete_confirm_text target.from_ target.subject) with
              email_id := some target.id, action_required := some ("confirm_delete") }))
    (fun e => Eff.raise (PyError.valueError ("Failed to process delete request: " ++ e.message)))

/-- Per-item fetch loop with skip-on-failure, used by digest and grouping. -/
def fetch_full_skip (svc : Service) : List EmailSummary → Eff (List FullEmail)
  | [] => Eff.pure []
  | em :: rest =>
    Eff.bind
      (Eff.tryCatch (Eff.bind (getByIdE svc em.id) (fun f => Eff.pure (some f)))
        (fun _ => Eff.pure none))
      (fun of =>
        Eff.bind (fetch_full_skip svc rest) (fun tail =>
          Eff.pure (match of with | some f => f :: tail | none => tail)))

/-- The concatenated email block of the digest prompt (bodies truncated to 500). -/
def digest_emails_text (fulls : List FullEmail) : String :=
  pyJoin "\n\n" ((enumFrom 0 fulls).map (fun p =>
    "Email " ++ Nat.repr (p.1 + 1) ++ ":\nFrom: " ++ p.2.from_ ++ "\nSubject: " ++ p.2.subject ++ "\nBody: " ++ pyTakeChars 500 p.2.body))

/-- The digest prompt of _handle_daily_digest. -/
def digestPrompt (fulls : List FullEmail) : String :=
  "You are an email assistant creating a daily digest. Analyze these emails and create a comprehensive digest that includes:\n\n1. **Key Emails Summary**: Brief overview of the most important emails\n2. **Action Items**: List any tasks, deadlines, or follow-ups needed\n3. **Priority Items**: Highlight urgent or important emails\n4. **Suggested Actions**: Recommendations for what the user should do\n\nHere are today's emails:\n\n" ++ digest_emails_text fulls ++ "\n\nCreate a well-formatted, professional daily digest."

/-- Embedding of _handle_daily_digest. -/
def handle_daily_digest (svc : Service) (g : Gemini) (_message : String) : Eff Response :=
  Eff.tryCatch
    (Eff.bind (fetchLatestE svc 50) (fun emails =>
      if emails.isEmpty then Eff.pure (Response.base ("You don't have any emails today."))
      else
        Eff.bind (fetch_full_skip svc (emails.take 20)) (fun fulls =>
          Eff.bind (geminiE g (digestPrompt fulls)) (fun digest =>
            Eff.pure { Response.base ("📊 **Your Daily Email Digest**\n\n" ++ digest) with
              email_count := some fulls.length }))))
    (fun e => Eff.raise (PyError.valueError ("Failed to generate digest: " ++ e.message)))

/-- Embedding of _get_categories_list. -/
def categories_list : List Category :=
  [{ id := "INBOX", label := "All Mails" }, { id := "IMPORTANT", label := "Important" },
   { id := "CATEGORY_PERSONAL", label := "Work" },
   { id := "CATEGORY_PROMOTIONS", label := "Promotion" }, { id := "SPAM", label := "Spam" }]

/-- Embedding of _handle_show_categories. -/
def handle_show_categories : Eff Response :=
  Eff.pure { Response.base ("Select a category to see the top 5 emails:") with
    categories := some categories_list, show_category_buttons := some true }

/-- Display name of a label id, defaulting to the id itself. -/
def label_name_of (label_id : String) : String :=
  ((categories_list.find? (fun c => c.id == label_id)).map (fun c => c.label)).getD label_id

/-- Embedding of _handle_emails_by_category. -/
def handle_emails_by_category (svc : Service) (label_id : String) : Eff Response :=
  Eff.tryCatch
    (Eff.bind (fetchByLabelE svc label_id 5) (fun emails =>
      if emails.isEmpty then
        Eff.pure { Response.base ("No emails found in **" ++ label_name_of label_id ++ "**.") with
          emails := some [], action_type := some ("read") }
      else
        Eff.pure { Response.base ("Top 5 emails in **" ++ label_name_of label_id ++ "** (click to read):") with
          emails := some emails, action_type := some ("read"), show_email_list := some true }))
    (fun e => Eff.raise (PyError.valueError ("Failed to fetch emails for that category: " ++ e.message)))

/-- The concatenated email block of the grouping prompt (bodies truncated to 300). -/
def grouping_emails_text (fulls : List FullEmail) : String :=
  pyJoin "\n\n" ((enumFrom 0 fulls).map (fun p =>
    "Email " ++ Nat.repr (p.1 + 1) ++ ":\nFrom: " ++ p.2.from_ ++ "\nSubject: " ++ p.2.subject ++ "\nBody: " ++ pyTakeChars 300 p.2.body))

/-- The grouping prompt of _handle_smart_grouping. -/
def groupingPrompt (fulls : List FullEmail) : String :=
  "You are an email assistant. Categorize these emails into groups like:\n- Work\n- Personal\n- Promotions\n- Urgent\n- Newsletters\n- Social\n\nFor each email, provide:\n1. Category\n2. Brief reason for categorization\n\nEmails:\n" ++ grouping_emails_text fulls ++ "\n\nReturn a structured categorization with each email's number, category, and reason."

/-- Embedding of _handle_smart_grouping. -/
def handle_smart_grouping (svc : Service) (g : Gemini) (_message : String) : Eff Response :=
  Eff.tryCatch
    (Eff.bind (fetchLatestE svc 20) (fun emails =>
      if emails.isEmpty then Eff.pure (Response.base ("You don't have enough emails to group."))
      else
        Eff.bind (fetch_full_skip svc emails) (fun fulls =>
          Eff.bind (geminiE g (groupingPrompt fulls)) (fun categorization =>
            Eff.pure { Response.base ("📁 **Smart Inbox Grouping**\n\nI've analyzed your " ++ Nat.repr fulls.length ++ " emails:\n\n" ++ categorization ++ "\n\nWould you like me to show emails from a specific category?") with
              email_count := some fulls.length }))))
    (fun e => Eff.raise (PyError.valueError ("Failed to group emails: " ++ e.message)))

/-- The static help reply of _handle_help. -/
def help_text : String :=
  "I'm your AI email assistant! Here's what I can do:\n\n📧 **Read Emails**: \n   - \"Show me my last 5 emails\"\n   - \"Read my emails\"\n   - \"Display my inbox\"\n\n📝 **Summarize**: \n   - \"Summarize my last 5 emails\"\n   - \"Give me a summary of my emails\"\n\n✍️ **Generate Replies**: \n   - \"Reply to email 1\"\n   - \"Generate a response to the latest email from John\"\n   - \"Reply to the email about invoices\"\n\n🗑️ **Delete Emails**: \n   - \"Delete email 2\"\n   - \"Delete the email from john@example.com\"\n   - \"Delete email about invoices\"\n\n📊 **Daily Digest**: \n   - \"Give me today's digest\"\n   - \"What's my email digest for today?\"\n\n🏷️ **Smart Grouping**: \n   - \"Group my emails\"\n   - \"Categorize my inbox\"\n\nJust use natural language - I'll understand what you need!"

/-- Embedding of _handle_help. -/
def handle_help : Eff Response := Eff.pure (Response.base help_text)

/-- The narrative prompt of _handle_unknown_intent. -/
def unknownPrompt (message : String) : String :=
  "The user said: \"" ++ message ++ "\"\n\nThey're using an email assistant. Determine if they want to:\n- Read/view emails\n- Summarize emails\n- Reply to an email\n- Delete an email\n- Get a daily digest\n- Group/categorize emails\n- Or just general help\n\nProvide a helpful response that guides them on what they can do."

/-- Embedding of _handle_unknown_intent. -/
def handle_unknown_intent (g : Gemini) (message : String) (_svc : Service) : Eff Response :=
  Eff.tryCatch
    (Eff.bind (geminiE g (unknownPrompt message)) (fun reply => Eff.pure (Response.base reply)))
    (fun _ => Eff.pure (Response.base ("I'm not sure what you'd like to do. You can:\n- Read your emails\n- Summarize emails\n- Generate replies\n- Delete emails\n- Get a daily digest\n- Group your emails\n\nJust tell me what you need!")))

/-! ## The /message endpoint -/

/-- The valid category label ids accepted by the category directive. -/
def valid_labels : List String :=
  ["INBOX", "IMPORTANT", "CATEGORY_PERSONAL", "CATEGORY_SOCIAL", "CATEGORY_PROMOTIONS",
   "CATEGORY_UPDATES", "SPAM"]

/-- The remediation reply produced when the Gmail API is not enabled. -/
def gmail_help_text : String :=
  "Gmail API is not enabled in your Google Cloud project. Please enable it by:\n1. Go to https://console.cloud.google.com/apis/library/gmail.googleapis.com\n2. Select your project (or create one if needed)\n3. Click 'Enable'\n4. Wait a few minutes for the changes to propagate\n5. Try again"

/-- The clarification reply for an email_id directive with no valid action_type. -/
def reselect_text : String :=
  "I couldn't determine what action to perform. Please try clicking the email again."

/-- Dispatch on the resolved intent, lines 193-235 of the chat endpoint. -/
def dispatch_intent (svc : Service) (g : Gemini) (message ml : String) (d : IntentData) : Eff Response :=
  let intent := d.intent.getD ("unknown")
  if intent == "read" then
    if pyContains ml ("view & read") || pyContains ml ("view read") then
      handle_show_email_list svc ("read")
    else handle_read_emails svc g (d.num_emails.getD 5) message
  else if intent == "summarize" then
    if pyContains ml ("summarize emails") then handle_show_email_list svc ("summarize")
    else handle_summarize_emails svc g (d.num_emails.getD 5) message
  else if intent == "reply" then
    if pyContains ml ("reply & compose") || pyContains ml ("reply compose") then
      handle_show_email_list svc ("reply")
    else handle_reply_intent svc g message d
  else if intent == "delete" then
    if pyContains ml ("delete & organize") || pyContains ml ("delete organize") then
      handle_show_email_list svc ("delete")
    else handle_delete_intent svc message d
  else if intent == "digest" then handle_daily_digest svc g message
  else if intent == "show_categories" then handle_show_categories
  else if intent == "group" then handle_smart_grouping svc g message
  else if (intent == "greeting") || (intent == "help") then handle_help
  else handle_unknown_intent g message svc

/-- The body of the chat endpoint before its exception handlers. -/
def chat_body (svc : Service) (g : Gemini) (parse : JsonParse) (raw : String) : Eff Response :=
  let message := pyStrip raw
  if message == "" then Eff.pure (Response.base ("Please provide a message."))
  else
    let ml := pyLower message
    Eff.bind buildServiceE (fun _ =>
      match extract_email_id_directive message with
      | some email_id =>
        let action_type := extract_action_type_directive message
        if action_type == some ("read") then handle_read_single_email svc email_id
        else if action_type == some ("summarize") then handle_summarize_single_email svc g email_id
        else if action_type == some ("reply") then handle_reply_to_single_email svc email_id
        else if action_type == some ("delete") then handle_delete_single_email svc email_id
        else Eff.pure (Response.base reselect_text)
      | none =>
        match extract_category_directive message with
        | some cat =>
          let label_id := pyUpper cat
          if valid_labels.contains label_id then handle_emails_by_category svc label_id
          else
            Eff.pure { Response.base ("Unknown category. Please choose one of: All Mails, Important, Work, Promotion, Spam.") with
              categories := some categories_list }
        | none =>
          match extract_reply_text_directive message with
          | some p => handle_user_composed_reply svc p.1 (pyStrip p.2)
          | none =>
            Eff.bind (understand_intent g parse message) (fun d =>
              dispatch_intent svc g message ml d))

/-- Embedding of the /message endpoint: the body wrapped in the except clauses of
the chat function (re-raise HTTPException, turn ValueError into its message,
turn any other exception into the generic or Gmail-remediation reply). -/
def chat (svc : Service) (g : Gemini) (parse : JsonParse) (raw : String) : Eff Response :=
  Eff.tryCatch (chat_body svc g parse raw)
    (fun e =>
      match e with
      | PyError.httpError c d => Eff.raise (PyError.httpError c d)
      | PyError.valueError m => Eff.pure (Response.base m)
      | PyError.other m =>
        if pyContains m ("accessNotConfigured") || pyContains m ("Gmail API has not been used") then
          Eff.pure (Response.base gmail_help_text)
        else
          Eff.pure (Response.base ("Sorry, I encountered an error: " ++ m ++ ". Please try again.")))

/-! ## The /confirm-action endpoint -/

/-- The /confirm-action request payload: every key optional, as a Python dict. -/
structure ConfirmPayload where
  action : Option String
  email_id : Option String
  reply_text : Option String
  confirmation : Option String
deriving DecidableEq, Repr

/-- The is_confirm test of confirm_action, applied to the stripped lowercased
confirmation text. -/
def is_confirm_of (confirmation : String) : Bool :=
  (confirmation == "yes") || (confirmation == "confirm") || (confirmation == "send") ||
  (confirmation == "y") || pyContains confirmation ("yes") || pyContains confirmation ("confirm")

/-- The cancellation response of confirm_action. -/
def cancelled_response : Response :=
  { Response.base ("Action cancelled.") with status := some ("cancelled") }

/-- The body of confirm_action before its exception handler. -/
def confirm_action_body (svc : Service) (payload : ConfirmPayload) : Eff Response :=
  let confirmation := pyLower (pyStrip (payload.confirmation.getD ("")))
  if is_confirm_of confirmation then
    Eff.bind buildServiceE (fun _ =>
      if payload.action == some ("send_reply") then
        if ((payload.email_id.getD ("")) == "") || ((payload.reply_text.getD ("")) == "") then
          Eff.pure { Response.base ("Missing email ID or reply text.") with status := some ("error") }
        else
          Eff.bind (replyToEmailE svc (payload.email_id.getD ("")) (payload.reply_text.getD (""))) (fun result =>
            Eff.pure { Response.base ("✅ Successfully sent your reply!") with
              status := some ("success"), result := some result })
      else if payload.action == some ("delete") then
        if (payload.email_id.getD ("")) == "" then
          Eff.pure { Response.base ("Missing email ID.") with status := some ("error") }
        else
          Eff.bind
            (Eff.tryCatch
              (Eff.bind (getByIdE svc (payload.email_id.getD (""))) (fun info => Eff.pure info.subject))
              (fun _ => Eff.pure ("email")))
            (fun subject =>
              Eff.bind (deleteEmailE svc (payload.email_id.getD (""))) (fun result =>
                Eff.pure { Response.base ("✅ Email moved to trash: '" ++ subject ++ "'. You can recover it from your Trash folder if needed.") with
                  status := some ("success"), result := some result }))
      else Eff.pure { Response.base ("Unknown action.") with status := some ("error") })
  else Eff.pure cancelled_response

/-- Embedding of the /confirm-action endpoint with its catch-all except clause. -/
def confirm_action (svc : Service) (payload : ConfirmPayload) : Eff Response :=
  Eff.tryCatch (confirm_action_body svc payload)
    (fun e =>
      Eff.pure { Response.base ("Failed to complete action: " ++ e.message) with
        status := some ("error") })

/-! ## Mutation-freedom framework -/

/-- Calls that change the mailbox: moving to trash and sending. -/
def Call.isMutating : Call → Bool
  | Call.trash _ => true
  | Call.send _ _ => true
  | _ => false

/-- A computation whose trace contains no mutating mailbox call. -/
def Eff.MutFree {α : Type} (m : Eff α) : Prop :=
  ∀ c ∈ m.calls, c.isMutating = false

theorem mutFree_pure {α : Type} (a : α) : (Eff.pure a).MutFree := by
  intro c hc
  simp [Eff.pure] at hc

theorem mutFree_raise {α : Type} (e : PyError) : (Eff.raise e : Eff α).MutFree := by
  intro c hc
  simp [Eff.raise] at hc

theorem mutFree_bind {α β : Type} {m : Eff α} {f : α → Eff β}
    (hm : m.MutFree) (hf : ∀ a, (f a).MutFree) : (Eff.bind m f).MutFree := by
  obtain ⟨res, cs⟩ := m
  cases res with
  | ok a =>
    intro c hc
    simp only [Eff.bind, List.mem_append] at hc
    rcases hc with h | h
    · exact hm c h
    · exact hf a c h
  | error e =>
    intro c hc
    simp only [Eff.bind] at hc
    exact hm c hc

theorem mutFree_tryCatch {α : Type} {m : Eff α} {h : PyError → Eff α}
    (hm : m.MutFree) (hh : ∀ e, (h e).MutFree) : (Eff.tryCatch m h).MutFree := by
  obtain ⟨res, cs⟩ := m
  cases res with
  | ok a => intro c hc; exact hm c hc
  | error e =>
    intro c hc
    simp only [Eff.tryCatch, List.mem_append] at hc
    rcases hc with h1 | h1
    · exact hm c h1
    · exact hh e c h1

theorem mutFree_buildServiceE : buildServiceE.MutFree := by
  intro c hc
  simp [buildServiceE] at hc
  simp [hc, Call.isMutating]

theorem mutFree_fetchLatestE (svc : Service) (n : Nat) : (fetchLatestE svc n).MutFree := by
  intro c hc
  simp [fetchLatestE] at hc
  simp [hc, Call.isMutating]

theorem mutFree_fetchByLabelE (svc : Service) (label : String) (n : Nat) :
    (fetchByLabelE svc label n).MutFree := by
  intro c hc
  simp [fetchByLabelE] at hc
  simp [hc, Call.isMutating]

theorem mutFree_getByIdE (svc : Service) (i : String) : (getByIdE svc i).MutFree := by
  intro c hc
  simp [getByIdE] at hc
  simp [hc, Call.isMutating]

theorem mutFree_geminiE (g : Gemini) (p : String) : (geminiE g p).MutFree := by
  intro c hc
  simp [geminiE] at hc
  simp [hc, Call.isMutating]

theorem mutFree_understand_intent (g : Gemini) (parse : JsonParse) (message : String) :
    (understand_intent g parse message).MutFree := by
  unfold understand_intent
  refine mutFree_tryCatch (mutFree_bind (mutFree_geminiE g _) (fun r => ?_)) (fun e => mutFree_pure _)
  split
  · split
    · exact mutFree_pure _
    · exact mutFree_raise _
  · exact mutFree_pure _

theorem mutFree_handle_show_email_list (svc : Service) (action : String) :
    (handle_show_email_list svc action).MutFree := by
  unfold handle_show_email_list
  refine mutFree_tryCatch (mutFree_bind (mutFree_fetchLatestE svc 10) (fun emails => ?_))
    (fun e => mutFree_raise _)
  split <;> exact mutFree_pure _

theorem mutFree_handle_read_single_email (svc : Service) (i : String) :
    (handle_read_single_email svc i).MutFree := by
  unfold handle_read_single_email
  exact mutFree_tryCatch (mutFree_bind (mutFree_getByIdE svc i) (fun full => mutFree_pure _))
    (fun e => mutFree_raise _)

theorem mutFree_handle_summarize_single_email (svc : Service) (g : Gemini) (i : String) :
    (handle_summarize_single_email svc g i).MutFree := by
  unfold handle_summarize_single_email
  exact mutFree_tryCatch
    (mutFree_bind (mutFree_getByIdE svc i) (fun full =>
      mutFree_bind (mutFree_geminiE g _) (fun s => mutFree_pure _)))
    (fun e => mutFree_raise _)

theorem mutFree_handle_reply_to_single_email (svc : Service) (i : String) :
    (handle_reply_to_single_email svc i).MutFree := by
  unfold handle_reply_to_single_email
  exact mutFree_tryCatch (mutFree_bind (mutFree_getByIdE svc i) (fun full => mutFree_pure _))
    (fun e => mutFree_raise _)

theorem mutFree_handle_user_composed_reply (svc : Service) (i t : String) :
    (handle_user_composed_reply svc i t).MutFree := by
  unfold handle_user_composed_reply
  refine mutFree_tryCatch ?_ (fun e => mutFree_raise _)
  split
  · exact mutFree_pure _
  · exact mutFree_bind
      (mutFree_tryCatch (mutFree_bind (mutFree_getByIdE svc i) (fun full => mutFree_pure _))
        (fun _ => mutFree_pure _))
      (fun p => mutFree_pure _)

theorem mutFree_handle_delete_single_email (svc : Service) (i : String) :
    (handle_delete_single_email svc i).MutFree := by
  unfold handle_delete_single_email
  exact mutFree_tryCatch
    (mutFree_bind
      (mutFree_tryCatch (mutFree_bind (mutFree_getByIdE svc i) (fun info => mutFree_pure _))
        (fun _ => mutFree_pure _))
      (fun p => mutFree_pure _))
    (fun e => mutFree_raise _)

theorem mutFree_fetch_full_contents (svc : Service) (es : List EmailSummary) :
    (fetch_full_contents svc es).MutFree := by
  induction es with
  | nil => exact mutFree_pure []
  | cons em rest ih =>
    exact mutFree_bind
      (mutFree_tryCatch (mutFree_getByIdE svc em.id) (fun _ => mutFree_pure _))
      (fun f => mutFree_bind ih (fun tail => mutFree_pure _))

theorem mutFree_summarize_from (g : Gemini) (i : Nat) (fs : List FullEmail) :
    (summarize_from g i fs).MutFree := by
  induction fs generalizing i with
  | nil => exact mutFree_pure []
  | cons e rest ih =>
    exact mutFree_bind
      (mutFree_tryCatch (mutFree_geminiE g _) (fun _ => mutFree_pure _))
      (fun s => mutFree_bind (ih (i + 1)) (fun tail => mutFree_pure _))

theorem mutFree_handle_read_emails (svc : Service) (g : Gemini) (n : Nat) (msg : String) :
    (handle_read_emails svc g n msg).MutFree := by
  unfold handle_read_emails
  refine mutFree_tryCatch (mutFree_bind (mutFree_fetchLatestE svc n) (fun emails => ?_))
    (fun e => mutFree_raise _)
  split
  · exact mutFree_pure _
  · exact mutFree_bind (mutFree_fetch_full_contents svc emails) (fun fulls =>
      mutFree_bind (mutFree_summarize_from g 0 fulls) (fun summaries => mutFree_pure _))

theorem mutFree_handle_reply_intent (svc : Service) (g : Gemini) (msg : String) (d : IntentData) :
    (handle_reply_intent svc g msg d).MutFree := by
  unfold handle_reply_intent
  refine mutFree_tryCatch (mutFree_bind (mutFree_fetchLatestE svc 10) (fun emails => ?_))
    (fun e => mutFree_raise _)
  dsimp only
  split
  · exact mutFree_pure _
  · split
    · exact mutFree_pure _
    · exact mutFree_bind (mutFree_getByIdE svc _) (fun full =>
        mutFree_bind (mutFree_geminiE g _) (fun rt => mutFree_pure _))

theorem mutFree_handle_delete_intent (svc : Service) (msg : String) (d : IntentData) :
    (handle_delete_intent svc msg d).MutFree := by
  unfold handle_delete_intent
  refine mutFree_tryCatch (mutFree_bind (mutFree_fetchLatestE svc 20) (fun emails => ?_))
    (fun e => mutFree_raise _)
  dsimp only
  split
  · exact mutFree_pure _
  · split
    · exact mutFree_pure _
    · split <;> exact mutFree_pure _

theorem mutFree_fetch_full_skip (svc : Service) (es : List EmailSummary) :
    (fetch_full_skip svc es).MutFree := by
  induction es with
  | nil => exact mutFree_pure []
  | cons em rest ih =>
    exact mutFree_bind
      (mutFree_tryCatch (mutFree_bind (mutFree_getByIdE svc em.id) (fun f => mutFree_pure _))
        (fun _ => mutFree_pure _))
      (fun of => mutFree_bind ih (fun tail => mutFree_pure _))

theorem mutFree_handle_daily_digest (svc : Service) (g : Gemini) (msg : String) :
    (handle_daily_digest svc g msg).MutFree := by
  unfold handle_daily_digest
  refine mutFree_tryCatch (mutFree_bind (mutFree_fetchLatestE svc 50) (fun emails => ?_))
    (fun e => mutFree_raise _)
  split
  · exact mutFree_pure _
  · exact mutFree_bind (mutFree_fetch_full_skip svc _) (fun fulls =>
      mutFree_bind (mutFree_geminiE g _) (fun digest => mutFree_pure _))

theorem mutFree_handle_show_categories : handle_show_categories.MutFree :=
  mutFree_pure _

theorem mutFree_handle_emails_by_category (svc : Service) (label : String) :
    (handle_emails_by_category svc label).MutFree := by
  unfold handle_emails_by_category
  refine mutFree_tryCatch (mutFree_bind (mutFree_fetchByLabelE svc label 5) (fun emails => ?_))
    (fun e => mutFree_raise _)
  split <;> exact mutFree_pure _

theorem mutFree_handle_smart_grouping (svc : Service) (g : Gemini) (msg : String) :
    (handle_smart_grouping svc g msg).MutFree := by
  unfold handle_smart_grouping
  refine mutFree_tryCatch (mutFree_bind (mutFree_fetchLatestE svc 20) (fun emails => ?_))
    (fun e => mutFree_raise _)
  split
  · exact mutFree_pure _
  · exact mutFree_bind (mutFree_fetch_full_skip svc _) (fun fulls =>
      mutFree_bind (mutFree_geminiE g _) (fun cat => mutFree_pure _))

theorem mutFree_handle_help : handle_help.MutFree :=
  mutFree_pure _

theorem mutFree_handle_unknown_intent (g : Gemini) (msg : String) (svc : Service) :
    (handle_unknown_intent g msg svc).MutFree := by
  unfold handle_unknown_intent
  exact mutFree_tryCatch (mutFree_bind (mutFree_geminiE g _) (fun r => mutFree_pure _))
    (fun _ => mutFree_pure _)

theorem mutFree_dispatch_intent (svc : Service) (g : Gemini) (message ml : String) (d : IntentData) :
    (dispatch_intent svc g message ml d).MutFree := by
  unfold dispatch_intent
  dsimp only
  split
  · split
    · exact mutFree_handle_show_email_list _ _
    · exact mutFree_handle_read_emails _ _ _ _
  · split
    · split
      · exact mutFree_handle_show_email_list _ _
      · exact mutFree_handle_read_emails _ _ _ _
    · split
      · split
        · exact mutFree_handle_show_email_list _ _
        · exact mutFree_handle_reply_intent _ _ _ _
      · split
        · split
          · exact mutFree_handle_show_email_list _ _
          · exact mutFree_handle_delete_intent _ _ _
        · split
          · exact mutFree_handle_daily_digest _ _ _
          · split
            · exact mutFree_handle_show_categories
            · split
              · exact mutFree_handle_smart_grouping _ _ _
              · split
                · exact mutFree_handle_help
                · exact mutFree_handle_unknown_intent _ _ _

theorem mutFree_chat_body (svc : Service) (g : Gemini) (parse : JsonParse) (raw : String) :
    (chat_body svc g parse raw).MutFree := by
  unfold chat_body
  dsimp only
  split
  · exact mutFree_pure _
  · refine mutFree_bind mutFree_buildServiceE (fun _ => ?_)
    split
    · split
      · exact mutFree_handle_read_single_email _ _
      · split
        · exact mutFree_handle_summarize_single_email _ _ _
        · split
          · exact mutFree_handle_reply_to_single_email _ _
          · split
            · exact mutFree_handle_delete_single_email _ _
            · exact mutFree_pure _
    · split
      · split
        · exact mutFree_handle_emails_by_category _ _
        · exact mutFree_pure _
      · split
        · exact mutFree_handle_user_composed_reply _ _ _
        · exact mutFree_bind (mutFree_understand_intent _ _ _)
            (fun d => mutFree_dispatch_intent _ _ _ _ d)

theorem mutFree_chat (svc : Service) (g : Gemini) (parse : JsonParse) (raw : String) :
    (chat svc g parse raw).MutFree := by
  unfold chat
  refine mutFree_tryCatch (mutFree_chat_body svc g parse raw) (fun e => ?_)
  split
  · exact mutFree_raise _
  · exact mutFree_pure _
  · split <;> exact mutFree_pure _

/-- Helper: a cancelled confirmation returns immediately with no calls at all. -/
theorem confirm_action_cancelled (svc : Service) (payload : ConfirmPayload)
    (h : is_confirm_of (pyLower (pyStrip (payload.confirmation.getD ("")))) = false) :
    confirm_action svc payload = ⟨Except.ok cancelled_response, []⟩ := by
  unfold confirm_action confirm_action_body
  simp [h, Eff.tryCatch, Eff.pure]

/-! ## Result-shape helpers for the batch read handler -/

/-- Helper: a try block whose result is a normal return passes through tryCatch. -/
theorem Eff.tryCatch_of_ok {α : Type} {m : Eff α} {h : PyError → Eff α} {a : α}
    (hm : m.result = Except.ok a) : Eff.tryCatch m h = m := by
  obtain ⟨res, cs⟩ := m
  cases res with
  | ok b => rfl
  | error e => exact absurd hm (by simp)

/-- The full message the batch read handler works with for one listing item:
the fetched message, or the degraded dict when the fetch failed. -/
def full_of (svc : Service) (em : EmailSummary) : FullEmail :=
  match svc.get_email_by_id em.id with
  | Except.ok f => f
  | Except.error _ => degraded_full em

theorem fetch_full_contents_result (svc : Service) (es : List EmailSummary) :
    (fetch_full_contents svc es).result = Except.ok (es.map (full_of svc)) := by
  induction es with
  | nil => rfl
  | cons em rest ih =>
    unfold fetch_full_contents
    cases hg : svc.get_email_by_id em.id with
    | ok f => simp [Eff.bind, Eff.tryCatch, getByIdE, Eff.pure, hg, full_of, ih]
    | error e => simp [Eff.bind, Eff.tryCatch, getByIdE, Eff.pure, hg, full_of, ih]

/-- The summary entry the batch read handler produces for one full message. -/
def entry_of (g : Gemini) (i : Nat) (e : FullEmail) : SummaryEntry :=
  match g (summaryPrompt e.from_ e.subject e.body) with
  | Except.ok s => summary_entry i e s
  | Except.error _ => summary_entry i e (e.snippet.getD ("Summary unavailable"))

theorem summarize_from_result (g : Gemini) (fs : List FullEmail) (i : Nat) :
    (summarize_from g i fs).result =
      Except.ok ((enumFrom i fs).map (fun p => entry_of g p.1 p.2)) := by
  induction fs generalizing i with
  | nil => rfl
  | cons e rest ih =>
    unfold summarize_from
    cases hg : g (summaryPrompt e.from_ e.subject e.body) with
    | ok s => simp [Eff.bind, Eff.tryCatch, geminiE, Eff.pure, hg, enumFrom, entry_of, ih]
    | error er => simp [Eff.bind, Eff.tryCatch, geminiE, Eff.pure, hg, enumFrom, entry_of, ih]

theorem enumFrom_length {α : Type} (l : List α) (i : Nat) :
    (enumFrom i l).length = l.length := by
  induction l generalizing i with
  | nil => rfl
  | cons a rest ih => simp [enumFrom, ih]

theorem enumFrom_getElem {α : Type} (l : List α) (i j : Nat) (hj : j < l.length)
    (hj2 : j < (enumFrom i l).length) :
    (enumFrom i l)[j] = (i + j, l[j]) := by
  induction l generalizing i j with
  | nil => exact absurd hj (by simp)
  | cons a rest ih =>
    cases j with
    | zero => simp [enumFrom]
    | succ j' =>
      have hj' : j' < rest.length := by simpa using hj
      have hj2' : j' < (enumFrom (i + 1) rest).length := by
        rw [enumFrom_length]; exact hj'
      simp only [enumFrom, List.getElem_cons_succ]
      rw [ih (i + 1) j' hj' hj2']
      have harith : i + 1 + j' = i + (j' + 1) := by omega
      rw [harith]

/-- Characterization of the batch read handler on a successful nonempty listing. -/
theorem handle_read_emails_ok (svc : Service) (g : Gemini) (n : Nat) (msg : String)
    (emails : List EmailSummary) (hlist : svc.fetch_latest_emails n = Except.ok emails)
    (hne : emails.isEmpty = false) :
    (handle_read_emails svc g n msg).result =
      Except.ok { Response.base (read_response_text
          ((enumFrom 0 (emails.map (full_of svc))).map (fun p => entry_of g p.1 p.2))) with
        emailSummaries :=
          some ((enumFrom 0 (emails.map (full_of svc))).map (fun p => entry_of g p.1 p.2)) } := by
  unfold handle_read_emails
  simp [Eff.tryCatch, Eff.bind, fetchLatestE, hlist, hne, fetch_full_contents_result,
    summarize_from_result, Eff.pure]

/-- Characterization of the batch read handler when the listing itself fails. -/
theorem handle_read_emails_list_failure (svc : Service) (g : Gemini) (n : Nat) (msg : String)
    (er : PyError) (hlist : svc.fetch_latest_emails n = Except.error er) :
    (handle_read_emails svc g n msg).result =
      Except.error (PyError.valueError ("Failed to read emails: " ++ er.message)) := by
  unfold handle_read_emails
  simp [Eff.tryCatch, Eff.bind, fetchLatestE, hlist, Eff.raise, PyError.message]

/-! ## Spec-side definitions and sample data -/

/-- The confirmation-matching rule exactly as the spec words it (section 4.4):
case-insensitive exact match against the four-element set, or substring
containment of yes or confirm anywhere in the text. -/
def affirms_confirmation_spec (raw : String) : Bool :=
  let t := pyLower (pyStrip raw)
  (["yes", "confirm", "send", "y"] : List String).contains t ||
  pyContains t ("yes") || pyContains t ("confirm")

/-- Helper converting a propositional disequality to a false boolean test. -/
theorem beq_false_of_ne {α : Type} [BEq α] [LawfulBEq α] {a b : α} (h : a ≠ b) :
    (a == b) = false := by
  cases hx : a == b with
  | false => rfl
  | true => exact absurd (eq_of_beq hx) h

/-- Sample listing item one (the most recent message). -/
def cEmail1 : EmailSummary :=
  { id := "e1", subject := "Lunch plan", from_ := "Alice Smith <alice@ex.com>",
    snippet := "lunch tomorrow?", date := "Mon" }

/-- Sample listing item two, whose subject mentions invoices. -/
def cEmail2 : EmailSummary :=
  { id := "e2", subject := "Your invoices for March", from_ := "Bob <bob@ex.com>",
    snippet := "see attached", date := "Tue" }

/-- Sample full messages for the two sample ids. -/
def cFull (i : String) : FullEmail :=
  if i == "e1" then
    { id := "e1", subject := "Lunch plan", from_ := "Alice Smith <alice@ex.com>",
      to_ := some ("me@ex.com"), date := "Mon", body := "Want lunch tomorrow?",
      snippet := some ("lunch tomorrow?") }
  else
    { id := "e2", subject := "Your invoices for March", from_ := "Bob <bob@ex.com>",
      to_ := some ("me@ex.com"), date := "Tue", body := "Invoices attached.",
      snippet := some ("see attached") }

/-- Sample successful mutation result. -/
def cRes : GmailResult := { status := "success", message := "ok", message_id := some ("m1") }

/-- A mailbox behaviour where every operation succeeds on the two-message inbox. -/
def cSvc : Service :=
  { fetch_latest_emails := fun n => Except.ok (List.take n [cEmail1, cEmail2]),
    fetch_emails_by_label := fun _ _ => Except.ok [],
    get_email_by_id := fun i => Except.ok (cFull i),
    delete_email := fun _ => Except.ok cRes,
    reply_to_email := fun _ _ => Except.ok cRes }

/-- A mailbox behaviour where listing succeeds but every full-content fetch fails. -/
def cSvcFetchFail : Service :=
  { fetch_latest_emails := fun _ => Except.ok [cEmail1],
    fetch_emails_by_label := fun _ _ => Except.ok [],
    get_email_by_id := fun _ => Except.error (PyError.valueError ("boom")),
    delete_email := fun _ => Except.ok cRes,
    reply_to_email := fun _ _ => Except.ok cRes }

/-- A text-generation behaviour that always fails. -/
def gemDown : Gemini := fun _ => Except.error (PyError.valueError ("gemini down"))

/-- A text-generation behaviour that always returns plain text with no JSON. -/
def gemPlain : Gemini := fun _ => Except.ok ("no json here")

/-- A JSON-parse behaviour that always fails. -/
def parseNone : JsonParse := fun _ => none

/-- An intent-data value used where the dispatcher passes unused parameters. -/
def dEmpty : IntentData := { intent := none, num_emails := none, confidence := none }

/-- A delete confirmation payload whose confirmation text is "no". -/
def payloadNo : ConfirmPayload :=
  { action := some ("delete"), email_id := some ("e1"), reply_text := none,
    confirmation := some ("no") }

/-- A delete confirmation payload whose confirmation text is "nah". -/
def payloadNah : ConfirmPayload :=
  { action := some ("delete"), email_id := some ("e1"), reply_text := none,
    confirmation := some ("nah") }

/-- A confirmation payload with every field missing. -/
def payloadEmptyAll : ConfirmPayload :=
  { action := none, email_id := none, reply_text := none, confirmation := none }

/-! ## Claim theorems -/

/-- C1: no chat turn of the /message endpoint ever performs a mutating mailbox
operation (trash or send), whatever the mailbox, generation and parsing
behaviours and whatever the message; and the /confirm-action endpoint performs
no mutating operation either unless the supplied confirmation text affirms. -/
theorem chat_and_confirm_mutation_discipline (svc : Service) (g : Gemini) (parse : JsonParse)
    (raw : String) (svc2 : Service) (payload : ConfirmPayload) :
    (chat svc g parse raw).MutFree ∧
    (is_confirm_of (pyLower (pyStrip (payload.confirmation.getD ("")))) = false →
      (confirm_action svc2 payload).MutFree) := by
  refine ⟨mutFree_chat svc g parse raw, fun h => ?_⟩
  rw [confirm_action_cancelled svc2 payload h]
  intro c hc
  simp at hc

/-- Witness for C1 at a concrete turn and a concrete non-affirming confirmation. -/
theorem chat_and_confirm_mutation_discipline_witness :
    (chat cSvc gemPlain parseNone ("hello")).MutFree ∧
    (confirm_action cSvc payloadNo).MutFree :=
  ⟨(chat_and_confirm_mutation_discipline cSvc gemPlain parseNone ("hello") cSvc payloadNo).1,
   (chat_and_confirm_mutation_discipline cSvc gemPlain parseNone ("hello") cSvc payloadNo).2
     (by decide)⟩

/-- C2: the resolver affirms exactly the confirmation strings described by the
spec (trimmed lowercased exact match against yes/confirm/send/y, or substring
containment of yes or confirm); "YES", "Confirm!" and "please confirm" affirm
while "", "no" and "nah" do not; and every non-affirming confirmation yields
the cancelled-status response, never an ambiguous retry. -/
theorem confirmation_matching_correct :
    (∀ raw : String, is_confirm_of (pyLower (pyStrip raw)) = affirms_confirmation_spec raw) ∧
    (affirms_confirmation_spec ("YES") = true ∧ affirms_confirmation_spec ("Confirm!") = true ∧
     affirms_confirmation_spec ("please confirm") = true ∧
     affirms_confirmation_spec ("") = false ∧ affirms_confirmation_spec ("no") = false ∧
     affirms_confirmation_spec ("nah") = false) ∧
    (∀ (svc : Service) (payload : ConfirmPayload),
      is_confirm_of (pyLower (pyStrip (payload.confirmation.getD ("")))) = false →
      (confirm_action svc payload).result = Except.ok cancelled_response) := by
  refine ⟨?_, by decide, ?_⟩
  · intro raw
    simp only [is_confirm_of, affirms_confirmation_spec, List.contains, List.elem]
    cases pyLower (pyStrip raw) == "yes" <;>
      cases pyLower (pyStrip raw) == "confirm" <;>
        cases pyLower (pyStrip raw) == "send" <;>
          cases pyLower (pyStrip raw) == "y" <;> simp
  · intro svc payload h
    rw [confirm_action_cancelled svc payload h]

/-- Witness for C2 at a concrete non-affirming payload. -/
theorem confirmation_matching_correct_witness :
    (confirm_action cSvc payloadNah).result = Except.ok cancelled_response :=
  confirmation_matching_correct.2.2 cSvc payloadNah (by decide)

/-- C3: a message carrying an email_id directive whose action_type is absent or
not one of read/summarize/reply/delete gets the fixed reselect reply, and the
turn performs no call beyond building the mailbox client: no single-item
handler runs. -/
theorem email_id_without_valid_action_is_clarified (svc : Service) (g : Gemini)
    (parse : JsonParse) (raw tok : String)
    (hid : extract_email_id_directive (pyStrip raw) = some tok)
    (h1 : extract_action_type_directive (pyStrip raw) ≠ some ("read"))
    (h2 : extract_action_type_directive (pyStrip raw) ≠ some ("summarize"))
    (h3 : extract_action_type_directive (pyStrip raw) ≠ some ("reply"))
    (h4 : extract_action_type_directive (pyStrip raw) ≠ some ("delete")) :
    chat svc g parse raw = ⟨Except.ok (Response.base reselect_text), [Call.build]⟩ := by
  have hne : (pyStrip raw == "") = false := by
    cases hx : pyStrip raw == "" with
    | false => rfl
    | true =>
      have hempty : pyStrip raw = "" := eq_of_beq hx
      have hnone : extract_email_id_directive ("") = none := by decide
      rw [hempty, hnone] at hid
      exact Option.noConfusion hid
  have hbody : chat_body svc g parse raw = ⟨Except.ok (Response.base reselect_text), [Call.build]⟩ := by
    unfold chat_body
    dsimp only
    simp [hne, hid, beq_false_of_ne h1, beq_false_of_ne h2, beq_false_of_ne h3,
      beq_false_of_ne h4, Eff.bind, buildServiceE, Eff.pure]
  unfold chat
  rw [hbody]
  rfl

/-- Witness for C3 at a concrete directive with an unrecognised action_type. -/
theorem email_id_without_valid_action_is_clarified_witness :
    chat cSvc gemPlain parseNone ("email_id:abc999 action_type:zap") =
      ⟨Except.ok (Response.base reselect_text), [Call.build]⟩ :=
  email_id_without_valid_action_is_clarified cSvc gemPlain parseNone
    ("email_id:abc999 action_type:zap") ("abc999") (by decide) (by decide) (by decide)
    (by decide) (by decide)

/-- Helper characterizing the intent extractor: it always returns normally, and
any failure of the generation call, of JSON extraction or of JSON parsing
produces the rule-based result. -/
theorem understand_intent_result (g : Gemini) (parse : JsonParse) (message : String) :
    (understand_intent g parse message).result =
      Except.ok (match g (intentPrompt message) with
        | Except.error _ => rule_based_intent message
        | Except.ok r =>
          match extract_json_object r with
          | none => rule_based_intent message
          | some js =>
            match parse js with
            | some d => d
            | none => rule_based_intent message) := by
  unfold understand_intent
  cases hg : g (intentPrompt message) with
  | error e => simp [Eff.bind, Eff.tryCatch, geminiE, Eff.pure, hg]
  | ok r =>
    cases hj : extract_json_object r with
    | none => simp [Eff.bind, Eff.tryCatch, geminiE, Eff.pure, hg, hj]
    | some js =>
      cases hp : parse js with
      | none => simp [Eff.bind, Eff.tryCatch, geminiE, Eff.pure, Eff.raise, hg, hj, hp]
      | some d => simp [Eff.bind, Eff.tryCatch, geminiE, Eff.pure, hg, hj, hp]

/-- C4: the intent extractor never raises to its caller, and on a failed
generation call, on output with no JSON object, or on unparseable JSON it
returns exactly the deterministic rule-based result. -/
theorem intent_extractor_never_raises (g : Gemini) (parse : JsonParse) (message : String) :
    (∃ d, (understand_intent g parse message).result = Except.ok d) ∧
    (∀ e, g (intentPrompt message) = Except.error e →
      (understand_intent g parse message).result = Except.ok (rule_based_intent message)) ∧
    (∀ r, g (intentPrompt message) = Except.ok r → extract_json_object r = none →
      (understand_intent g parse message).result = Except.ok (rule_based_intent message)) ∧
    (∀ r js, g (intentPrompt message) = Except.ok r → extract_json_object r = some js →
      parse js = none →
      (understand_intent g parse message).result = Except.ok (rule_based_intent message)) := by
  refine ⟨⟨_, understand_intent_result g parse message⟩, ?_, ?_, ?_⟩
  · intro e he
    simp [understand_intent_result, he]
  · intro r hr hj
    simp [understand_intent_result, hr, hj]
  · intro r js hr hj hp
    simp [understand_intent_result, hr, hj, hp]

/-- Witness for C4: a failing generation call at a concrete message falls back. -/
theorem intent_extractor_never_raises_witness :
    (understand_intent gemDown parseNone ("read my emails")).result =
      Except.ok (rule_based_intent ("read my emails")) :=
  (intent_extractor_never_raises gemDown parseNone ("read my emails")).2.1
    (PyError.valueError ("gemini down")) rfl

/-- C9: a message that is empty after stripping whitespace returns exactly the
fixed reply with every other field absent, and the turn performs no call at
all: no mailbox call, no text-generation call, no intent extraction. -/
theorem empty_message_short_circuit (svc : Service) (g : Gemini) (parse : JsonParse)
    (raw : String) (h : pyStrip raw = "") :
    chat svc g parse raw = ⟨Except.ok (Response.base ("Please provide a message.")), []⟩ := by
  unfold chat chat_body
  simp [h, Eff.tryCatch, Eff.pure]

/-- Witness for C9 at a whitespace-only message. -/
theorem empty_message_short_circuit_witness :
    chat cSvc gemPlain parseNone ("   ") =
      ⟨Except.ok (Response.base ("Please provide a message.")), []⟩ :=
  empty_message_short_circuit cSvc gemPlain parseNone ("   ") (by decide)

/-- C10: a non-affirming confirmation is answered with the cancelled-status
response before any validation of action, email_id or reply_text and before the
mailbox client is built, so the whole turn makes zero mailbox calls even when
those fields are missing or invalid. -/
theorem cancelled_confirmation_no_validation (svc : Service) (payload : ConfirmPayload)
    (h : is_confirm_of (pyLower (pyStrip (payload.confirmation.getD ("")))) = false) :
    confirm_action svc payload = ⟨Except.ok cancelled_response, []⟩ :=
  confirm_action_cancelled svc payload h

/-- Witness for C10 at a payload with every other field missing. -/
theorem cancelled_confirmation_no_validation_witness :
    confirm_action cSvc payloadEmptyAll = ⟨Except.ok cancelled_response, []⟩ :=
  cancelled_confirmation_no_validation cSvc payloadEmptyAll (by decide)

/-- C5: the rule-based fallback evaluates its keyword checks in the fixed
priority order read, summarize, reply, delete, digest, the explicit
categorize-mails phrase, group, greeting, help; the first matching check
determines the intent, the default is unknown with empty parameters, and
every rule-based result carries confidence 0.7. -/
theorem rule_based_priority_order (message : String) :
    (rule_based_intent message).confidence = some conf07 ∧
    (readCheck (pyLower message) = true →
      rule_based_intent message =
        { intent := some ("read"), num_emails := some ((firstInt message).getD 5),
          confidence := some conf07 }) ∧
    (readCheck (pyLower message) = false → summarizeCheck (pyLower message) = true →
      rule_based_intent message =
        { intent := some ("summarize"), num_emails := some ((firstInt message).getD 5),
          confidence := some conf07 }) ∧
    (readCheck (pyLower message) = false → summarizeCheck (pyLower message) = false →
      replyCheck (pyLower message) = true →
      rule_based_intent message =
        { intent := some ("reply"), num_emails := none, confidence := some conf07 }) ∧
    (readCheck (pyLower message) = false → summarizeCheck (pyLower message) = false →
      replyCheck (pyLower message) = false → deleteCheck (pyLower message) = true →
      rule_based_intent message =
        { intent := some ("delete"), num_emails := none, confidence := some conf07 }) ∧
    (readCheck (pyLower message) = false → summarizeCheck (pyLower message) = false →
      replyCheck (pyLower message) = false → deleteCheck (pyLower message) = false →
      digestCheck (pyLower message) = true →
      rule_based_intent message =
        { intent := some ("digest"), num_emails := none, confidence := some conf07 }) ∧
    (readCheck (pyLower message) = false → summarizeCheck (pyLower message) = false →
      replyCheck (pyLower message) = false → deleteCheck (pyLower message) = false →
      digestCheck (pyLower message) = false → categorizeMailsCheck (pyLower message) = true →
      rule_based_intent message =
        { intent := some ("show_categories"), num_emails := none, confidence := some conf07 }) ∧
    (readCheck (pyLower message) = false → summarizeCheck (pyLower message) = false →
      replyCheck (pyLower message) = false → deleteCheck (pyLower message) = false →
      digestCheck (pyLower message) = false → categorizeMailsCheck (pyLower message) = false →
      groupCheck (pyLower message) = true →
      rule_based_intent message =
        { intent := some ("group"), num_emails := none, confidence := some conf07 }) ∧
    (readCheck (pyLower message) = false → summarizeCheck (pyLower message) = false →
      replyCheck (pyLower message) = false → deleteCheck (pyLower message) = false →
      digestCheck (pyLower message) = false → categorizeMailsCheck (pyLower message) = false →
      groupCheck (pyLower message) = false → greetingCheck (pyLower message) = true →
      rule_based_intent message =
        { intent := some ("greeting"), num_emails := none, confidence := some conf07 }) ∧
    (readCheck (pyLower message) = false → summarizeCheck (pyLower message) = false →
      replyCheck (pyLower message) = false → deleteCheck (pyLower message) = false →
      digestCheck (pyLower message) = false → categorizeMailsCheck (pyLower message) = false →
      groupCheck (pyLower message) = false → greetingCheck (pyLower message) = false →
      helpCheck (pyLower message) = true →
      rule_based_intent message =
        { intent := some ("help"), num_emails := none, confidence := some conf07 }) ∧
    (readCheck (pyLower message) = false → summarizeCheck (pyLower message) = false →
      replyCheck (pyLower message) = false → deleteCheck (pyLower message) = false →
      digestCheck (pyLower message) = false → categorizeMailsCheck (pyLower message) = false →
      groupCheck (pyLower message) = false → greetingCheck (pyLower message) = false →
      helpCheck (pyLower message) = false →
      rule_based_intent message =
        { intent := some ("unknown"), num_emails := none, confidence := some conf07 }) := by
  refine ⟨?_, ?_, ?_, ?_, ?_, ?_, ?_, ?_, ?_, ?_, ?_⟩
  · unfold rule_based_intent
    dsimp only
    repeat' split
    all_goals rfl
  · intro h1
    simp [rule_based_intent, h1]
  · intro h1 h2
    simp [rule_based_intent, h1, h2]
  · intro h1 h2 h3
    simp [rule_based_intent, h1, h2, h3]
  · intro h1 h2 h3 h4
    simp [rule_based_intent, h1, h2, h3, h4]
  · intro h1 h2 h3 h4 h5
    simp [rule_based_intent, h1, h2, h3, h4, h5]
  · intro h1 h2 h3 h4 h5 h6
    simp [rule_based_intent, h1, h2, h3, h4, h5, h6]
  · intro h1 h2 h3 h4 h5 h6 h7
    simp [rule_based_intent, h1, h2, h3, h4, h5, h6, h7]
  · intro h1 h2 h3 h4 h5 h6 h7 h8
    simp [rule_based_intent, h1, h2, h3, h4, h5, h6, h7, h8]
  · intro h1 h2 h3 h4 h5 h6 h7 h8 h9
    simp [rule_based_intent, h1, h2, h3, h4, h5, h6, h7, h8, h9]
  · intro h1 h2 h3 h4 h5 h6 h7 h8 h9
    simp [rule_based_intent, h1, h2, h3, h4, h5, h6, h7, h8, h9]

/-- Witness for C5: a concrete message hitting the summarize branch. -/
theorem rule_based_priority_order_witness :
    rule_based_intent ("summarize my mail") =
      { intent := some ("summarize"), num_emails := some 5, confidence := some conf07 } :=
  ((rule_based_priority_order ("summarize my mail")).2.2.1 (by decide) (by decide)).trans
    (by decide)

/-- C6 counterexample: on the two-message inbox, "reply to the mail about
invoices" has no ordinal and no sender but a subject keyword matching the
second message; per the claim's cascade the second message should be targeted,
yet the reply turn targets the first (most recent) message.  And "delete this
email" has no ordinal, sender or subject keyword; per the claim's step four the
most recent message should be targeted, yet the delete turn returns the
listing asking for clarification with no target at all. -/
theorem target_cascade_counterexample :
    (extract_email_number ("reply to the mail about invoices") = none ∧
     extract_sender_name ("reply to the mail about invoices") = none ∧
     extract_subject_keyword ("reply to the mail about invoices") = some ("invoices") ∧
     pyContains (pyLower cEmail2.subject) (pyLower ("invoices")) = true ∧
     pyContains (pyLower cEmail1.subject) (pyLower ("invoices")) = false ∧
     ((chat cSvc gemPlain parseNone ("reply to the mail about invoices")).result.map
        (fun r => (r.email_id, r.action_required))) =
       Except.ok (some (cEmail1.id), some ("confirm_send")) ∧
     cEmail1.id ≠ cEmail2.id) ∧
    (extract_email_number ("delete this email") = none ∧
     extract_sender_name ("delete this email") = none ∧
     extract_subject_keyword ("delete this email") = none ∧
     cSvc.fetch_latest_emails 20 = Except.ok [cEmail1, cEmail2] ∧
     ((chat cSvc gemPlain parseNone ("delete this email")).result.map
        (fun r => (r.email_id, r.action_required, r.emails))) =
       Except.ok (none, none, some [cEmail1, cEmail2])) := by decide

/-- C6 amended: when no explicit selection was embedded and the request is not
generic, the reply handler resolves its target by ordinal, then sender
substring, then falls back to the most recent message (no subject-keyword
step); the delete handler resolves by ordinal, then sender substring, then
subject-keyword substring, and when all three fail it returns the listing
asking for clarification instead of defaulting to the most recent message. -/
theorem target_cascade_amended (svc : Service) (g : Gemini) (message : String)
    (d d2 : IntentData) (e0 : EmailSummary) (restR : List EmailSummary)
    (hR : svc.fetch_latest_emails 10 = Except.ok (e0 :: restR))
    (hRguard : reply_generic_guard (pyLower message) = false)
    (full : FullEmail)
    (hfull : svc.get_email_by_id (reply_target message (e0 :: restR) e0).id = Except.ok full)
    (draft : String)
    (hdraft : g (replyPrompt full.from_ full.subject full.body message) = Except.ok draft)
    (emailsD : List EmailSummary)
    (hD : svc.fetch_latest_emails 20 = Except.ok emailsD)
    (hDne : emailsD.isEmpty = false)
    (hDguard : delete_generic_guard (pyLower message) = false) :
    ((handle_reply_intent svc g message d).result.map
        (fun r => (r.email_id, r.action_required)) =
      Except.ok (some ((reply_target message (e0 :: restR) e0).id), some ("confirm_send"))) ∧
    ((handle_delete_intent svc message d2).result.map
        (fun r => (r.email_id, r.action_required, r.emails)) =
      Except.ok (match delete_target message emailsD with
        | some t => (some t.id, some ("confirm_delete"), none)
        | none => (none, none, some (emailsD.take 10)))) := by
  constructor
  · unfold handle_reply_intent
    simp only [Eff.tryCatch, Eff.bind, fetchLatestE, hR, hRguard, getByIdE, hfull, geminiE,
      hdraft, Eff.pure]
    rfl
  · unfold handle_delete_intent
    cases hdt : delete_target message emailsD with
    | some t =>
      simp only [Eff.tryCatch, Eff.bind, fetchLatestE, hD, hDne, hDguard, hdt, Eff.pure,
        Bool.false_eq_true, if_false]
      rfl
    | none =>
      simp only [Eff.tryCatch, Eff.bind, fetchLatestE, hD, hDne, hDguard, hdt, Eff.pure,
        Bool.false_eq_true, if_false]
      rfl

/-- Witness for C6 amended at the concrete message "delete this email". -/
theorem target_cascade_amended_witness :
    ((handle_reply_intent cSvc gemPlain ("delete this email") dEmpty).result.map
        (fun r => (r.email_id, r.action_required)) =
      Except.ok (some ((reply_target ("delete this email") [cEmail1, cEmail2] cEmail1).id),
        some ("confirm_send"))) ∧
    ((handle_delete_intent cSvc ("delete this email") dEmpty).result.map
        (fun r => (r.email_id, r.action_required, r.emails)) =
      Except.ok (match delete_target ("delete this email") [cEmail1, cEmail2] with
        | some t => (some t.id, some ("confirm_delete"), none)
        | none => (none, none, some (([cEmail1, cEmail2] : List EmailSummary).take 10)))) :=
  target_cascade_amended cSvc gemPlain ("delete this email") dEmpty dEmpty cEmail1 [cEmail2]
    (by decide) (by decide) (cFull ("e1")) (by decide) ("no json here") rfl
    [cEmail1, cEmail2] (by decide) (by decide) (by decide)

/-- C7: the failing input "read email 2" on the two-message inbox: the ordinal
2 is extracted and the rule-based intent is read with num_emails 2, yet the
chat turn returns AI summaries of the two most recent messages (including
email 1) with no single-email content, instead of resolving to the second
message as the claim and the handler's own hint text describe. -/
theorem read_ordinal_code_bug :
    extract_email_number ("read email 2") = some 2 ∧
    rule_based_intent ("read email 2") =
      { intent := some ("read"), num_emails := some 2, confidence := some conf07 } ∧
    ((chat cSvc gemDown parseNone ("read email 2")).result.map (fun r =>
      (r.emailSummaries.map (fun l => l.map (fun s => (s.email_number, s.id))),
       r.email_content, r.email_id))) =
      Except.ok (some [(1, "e1"), (2, "e2")], none, none) := by decide

/-- C8 counterexample: the listing yields one message whose snippet is "lunch
tomorrow?"; its full-content fetch fails, so the handler works with the
degraded dict that has no snippet key, and when the summary generation also
fails the single entry's summary is the placeholder, not the snippet. -/
theorem degraded_summary_counterexample :
    cSvcFetchFail.fetch_latest_emails 1 = Except.ok [cEmail1] ∧
    cSvcFetchFail.get_email_by_id ("e1") = Except.error (PyError.valueError ("boom")) ∧
    gemDown (summaryPrompt (degraded_full cEmail1).from_ (degraded_full cEmail1).subject
      (degraded_full cEmail1).body) = Except.error (PyError.valueError ("gemini down")) ∧
    ((chat cSvcFetchFail gemDown parseNone ("read 1 mail")).result.map (fun r =>
      r.emailSummaries.map (fun l => l.map (fun s => s.summary)))) =
      Except.ok (some ["Summary unavailable"]) ∧
    cEmail1.snippet = "lunch tomorrow?" ∧
    ("Summary unavailable" : String) ≠ "lunch tomorrow?" := by decide

/-- C8 amended: on a successful nonempty listing the batch result always has
exactly one entry per listed message; when the full-content fetch for item i
succeeded and only its summary generation failed, entry i's summary is the
fetched message's snippet (with the placeholder for an absent snippet key);
when the fetch for item i failed as well, entry i's summary is the placeholder
"Summary unavailable"; and only a failure of the listing call itself raises. -/
theorem degraded_summary_amended (svc : Service) (g : Gemini) (n : Nat) (msg : String)
    (emails : List EmailSummary)
    (hlist : svc.fetch_latest_emails n = Except.ok emails) (hne : emails.isEmpty = false) :
    ∃ entries : List SummaryEntry,
      ((handle_read_emails svc g n msg).result.map (fun r => r.emailSummaries) =
        Except.ok (some entries)) ∧
      entries.length = emails.length ∧
      (∀ (i : Nat) (hi : i < emails.length) (hi2 : i < entries.length),
        (∀ f er, svc.get_email_by_id (emails[i].id) = Except.ok f →
          g (summaryPrompt f.from_ f.subject f.body) = Except.error er →
          entries[i].summary = f.snippet.getD ("Summary unavailable")) ∧
        (∀ er er2, svc.get_email_by_id (emails[i].id) = Except.error er →
          g (summaryPrompt (degraded_full (emails[i])).from_
              (degraded_full (emails[i])).subject
              (degraded_full (emails[i])).body) = Except.error er2 →
          entries[i].summary = "Summary unavailable")) ∧
      (∀ (svc2 : Service) (er : PyError), svc2.fetch_latest_emails n = Except.error er →
        (handle_read_emails svc2 g n msg).result =
          Except.error (PyError.valueError ("Failed to read emails: " ++ er.message))) := by
  refine ⟨(enumFrom 0 (emails.map (full_of svc))).map (fun p => entry_of g p.1 p.2),
    ?_, ?_, ?_, ?_⟩
  · rw [handle_read_emails_ok svc g n msg emails hlist hne]
    rfl
  · simp [List.length_map, enumFrom_length]
  · intro i hi hi2
    have hfull_len : i < (emails.map (full_of svc)).length := by simpa using hi
    have henum_len : i < (enumFrom 0 (emails.map (full_of svc))).length := by
      rw [enumFrom_length]
      exact hfull_len
    have hget : ((enumFrom 0 (emails.map (full_of svc))).map
        (fun p => entry_of g p.1 p.2))[i] =
        entry_of g i (full_of svc (emails[i])) := by
      rw [List.getElem_map]
      rw [enumFrom_getElem (emails.map (full_of svc)) 0 i hfull_len henum_len]
      simp [List.getElem_map]
    constructor
    · intro f er hf hg
      have h1 : full_of svc (emails[i]) = f := by
        unfold full_of
        rw [hf]
      rw [hget, h1]
      unfold entry_of
      rw [hg]
      rfl
    · intro er er2 hf hg
      have h1 : full_of svc (emails[i]) = degraded_full (emails[i]) := by
        unfold full_of
        rw [hf]
      rw [hget, h1]
      unfold entry_of
      rw [hg]
      rfl
  · intro svc2 er her
    exact handle_read_emails_list_failure svc2 g n msg er her

/-- Witness for C8 amended on the single-message inbox with failing fetches. -/
theorem degraded_summary_amended_witness :
    ∃ entries : List SummaryEntry,
      ((handle_read_emails cSvcFetchFail gemDown 1 ("read 1 mail")).result.map
        (fun r => r.emailSummaries) = Except.ok (some entries)) ∧
      entries.length = 1 := by
  obtain ⟨entries, h1, h2, h3, h4⟩ :=
    degraded_summary_amended cSvcFetchFail gemDown 1 ("read 1 mail") [cEmail1]
      (by decide) (by decide)
  exact ⟨entries, h1, by simpa using h2⟩

end MindMail
